import Mathlib

/-!
Shallow embedding of the RFSN-NPC event-sourced state engine:
src/rfsn_hybrid/core/state/event_types.py, reducer.py, store.py,
src/rfsn_hybrid/core/queues.py and src/rfsn_hybrid/streaming/transaction.py.

Python floats are modelled as exact rationals; dictionaries keyed by strings
(used by the code only through key lookup, update and pop) as association
lists; and the two ambient effects the code performs (datetime.now() and
uuid.uuid4()) as an explicit `Env` value passed to the functions whose
Python bodies read them.  All definitions are computable and total.
-/

namespace RFSN

/-- Ambient readings taken during one call: datetime.now() is visible both
as an ISO-format string (`now`) and as epoch milliseconds (`now_ms`), and
uuid.uuid4() as `fresh_uuid`. -/
structure Env where
  now : String
  now_ms : Rat
  fresh_uuid : String
deriving DecidableEq

/-- util.clamp: `lo if x < lo else hi if x > hi else x`. -/
def clamp (x lo hi : Rat) : Rat :=
  if x < lo then lo else if x > hi then hi else x

/-- storage.Fact. -/
structure Fact where
  text : String
  tags : List String
  time : String
  salience : Rat
deriving DecidableEq

/-- types.RFSNState. -/
structure RFSNState where
  npc_name : String
  role : String
  affinity : Rat
  mood : String
  player_name : String
  player_playstyle : String
  recent_memory : String := ""
deriving DecidableEq

/-- core.state.event_types.EventType. -/
inductive EventType
  | AFFINITY_DELTA | MOOD_SET
  | FACT_ADD | FACT_REMOVE | FACT_DECAY | FACT_REINFORCE
  | TURN_ADD | TURN_CLEAR
  | PLAYER_EVENT
  | RELATIONSHIP_UPDATE
  | STATE_RESET | STATE_LOAD | STATE_SNAPSHOT
  | TRANSACTION_BEGIN | TRANSACTION_COMMIT | TRANSACTION_ABORT
deriving DecidableEq

/-- The "state_dict" sub-dictionary read by _handle_state_load. -/
structure StateDict where
  affinity : Option Rat := none
  mood : Option String := none
  recent_memory : Option String := none
deriving DecidableEq

/-- The event payload dictionary, with one field per key any reducer handler
reads; each field is an `Option` so that Python `payload.get(key, default)`
becomes `field.getD default`. -/
structure Payload where
  delta : Option Rat := none
  reason : Option String := none
  mood : Option String := none
  text : Option String := none
  tags : Option (List String) := none
  salience : Option Rat := none
  decay_rate : Option Rat := none
  min_salience : Option Rat := none
  fragment : Option String := none
  boost : Option Rat := none
  player_event_type : Option String := none
  strength : Option Rat := none
  affinity : Option Rat := none
  state_dict : Option StateDict := none
  role : Option String := none
  content : Option String := none
deriving DecidableEq

/-- core.state.event_types.StateEvent.  `timestamp` defaults to the
creation-time clock reading in Python; it is carried but never read by the
reducer or the store, so factory functions here leave it empty. -/
structure StateEvent where
  event_type : EventType
  npc_id : String
  payload : Payload
  timestamp : String := ""
  seq : Nat := 0
  convo_id : Option String := none
  source : String := "unknown"
deriving DecidableEq

/-- Does `hay` start with `needle`? (helper for `str_in`). -/
def list_starts : List Char → List Char → Bool
  | [], _ => true
  | _ :: _, [] => false
  | a :: as, b :: bs => a == b && list_starts as bs

/-- Does `needle` occur as a contiguous run inside `hay`? (helper). -/
def list_contains (needle : List Char) : List Char → Bool
  | [] => needle.isEmpty
  | c :: rest => list_starts needle (c :: rest) || list_contains needle rest

/-- Python `b in s` on strings: substring containment. -/
def str_in (needle hay : String) : Bool :=
  list_contains needle.toList hay.toList

/-- Python s.lower(), character by character. -/
def str_lower (s : String) : String :=
  String.mk (s.toList.map Char.toLower)

/-- Lookup in an association list modelling a Python dict (first, and in
reachable stores only, occurrence of the key). -/
def dict_get {α : Type} (key : String) : List (String × α) → Option α
  | [] => none
  | p :: rest => if p.1 = key then some p.2 else dict_get key rest

/-- reducer._AFFINITY_MAP. -/
def AFFINITY_MAP : List (String × Rat) :=
  [("GIFT", 0.15), ("PRAISE", 0.08), ("HELP", 0.06), ("PUNCH", -0.35),
   ("INSULT", -0.20), ("THREATEN", -0.25), ("THEFT", -0.15), ("TALK", 0.0)]

/-- reducer._MOOD_MAP. -/
def MOOD_MAP : List (String × String) :=
  [("GIFT", "Pleased"), ("PRAISE", "Warm"), ("HELP", "Grateful"),
   ("PUNCH", "Angry"), ("INSULT", "Offended"), ("THREATEN", "Hostile"),
   ("THEFT", "Suspicious")]

/-- Result triple of a reducer handler: (new state, new facts, emitted fact). -/
abbrev ReduceResult := RFSNState × Option (List Fact) × Option String

/-- reducer._handle_affinity_delta. -/
def _handle_affinity_delta (now : String) (state : RFSNState)
    (facts : Option (List Fact)) (payload : Payload) : ReduceResult :=
  let _ := now
  let delta := payload.delta.getD 0.0
  ({ state with affinity := clamp (state.affinity + delta) (-1.0) 1.0 }, facts, none)

/-- reducer._handle_mood_set. -/
def _handle_mood_set (now : String) (state : RFSNState)
    (facts : Option (List Fact)) (payload : Payload) : ReduceResult :=
  let _ := now
  ({ state with mood := payload.mood.getD "Neutral" }, facts, none)

/-- reducer._handle_fact_add.  The Python body stamps the new Fact with
`datetime.now().strftime(...)`: that wall-clock read is the `now` argument
here. -/
def _handle_fact_add (now : String) (state : RFSNState)
    (facts : Option (List Fact)) (payload : Payload) : ReduceResult :=
  match facts with
  | none => (state, none, none)
  | some fs =>
    let text := payload.text.getD ""
    let tags := payload.tags.getD []
    let salience := payload.salience.getD 0.5
    if 2000 < text.length then
      (state, some fs, none)
    else if ["<|", "|>", "system instruction"].any (fun b => str_in b (str_lower text)) then
      (state, some fs, none)
    else
      (state, some (fs ++ [{ text := text, tags := tags, time := now,
                             salience := salience }]), some text)

/-- reducer._handle_fact_decay. -/
def _handle_fact_decay (now : String) (state : RFSNState)
    (facts : Option (List Fact)) (payload : Payload) : ReduceResult :=
  let _ := now
  match facts with
  | none => (state, none, none)
  | some fs =>
    let decay_rate := payload.decay_rate.getD 0.05
    let min_salience := payload.min_salience.getD 0.1
    let new_facts := fs.map (fun f =>
      if min_salience < f.salience then
        { f with salience := max min_salience (f.salience - decay_rate) }
      else f)
    (state, some new_facts, none)

/-- reducer._handle_fact_reinforce.  The Python loop copies the list and
bumps the salience of every fact whose lowercased text contains the
fragment; value-wise that is the map below, returning the original list
when no fact matched. -/
def _handle_fact_reinforce (now : String) (state : RFSNState)
    (facts : Option (List Fact)) (payload : Payload) : ReduceResult :=
  let _ := now
  match facts with
  | none => (state, none, none)
  | some fs =>
    let fragment := str_lower (payload.fragment.getD "")
    let boost := payload.boost.getD 0.1
    if fragment = "" then (state, some fs, none)
    else
      let modified := fs.any (fun f => str_in fragment (str_lower f.text))
      let new_facts := fs.map (fun f =>
        if str_in fragment (str_lower f.text) then
          { f with salience := min 1.0 (f.salience + boost) }
        else f)
      (state, if modified then some new_facts else some fs, none)

/-- reducer._handle_player_event. -/
def _handle_player_event (now : String) (state : RFSNState)
    (facts : Option (List Fact)) (payload : Payload) : ReduceResult :=
  let _ := now
  let player_event_type := payload.player_event_type.getD "TALK"
  let strength := payload.strength.getD 0.5
  let delta := (dict_get player_event_type AFFINITY_MAP).getD 0.0 * strength
  let new_state := { state with affinity := clamp (state.affinity + delta) (-1.0) 1.0 }
  let new_state :=
    match dict_get player_event_type MOOD_MAP with
    | some m => { new_state with mood := m }
    | none => new_state
  (new_state, facts, none)

/-- reducer._handle_state_reset. -/
def _handle_state_reset (now : String) (state : RFSNState)
    (facts : Option (List Fact)) (payload : Payload) : ReduceResult :=
  let _ := now
  ({ state with affinity := payload.affinity.getD 0.0,
                mood := payload.mood.getD "Neutral",
                recent_memory := "" }, facts, none)

/-- reducer._handle_state_load. -/
def _handle_state_load (now : String) (state : RFSNState)
    (facts : Option (List Fact)) (payload : Payload) : ReduceResult :=
  let _ := now
  match payload.state_dict with
  | none => (state, facts, none)
  | some loaded =>
    ({ state with affinity := loaded.affinity.getD state.affinity,
                  mood := loaded.mood.getD state.mood,
                  recent_memory := loaded.recent_memory.getD "" }, facts, none)

/-- reducer._handle_noop. -/
def _handle_noop (now : String) (state : RFSNState)
    (facts : Option (List Fact)) (payload : Payload) : ReduceResult :=
  let _ := now
  let _ := payload
  (state, facts, none)

/-- reducer._EVENT_HANDLERS: the O(1) dispatch table.  Event types absent
from the Python dict map to `none`. -/
def _EVENT_HANDLERS (t : EventType) :
    Option (String → RFSNState → Option (List Fact) → Payload → ReduceResult) :=
  match t with
  | EventType.AFFINITY_DELTA => some _handle_affinity_delta
  | EventType.MOOD_SET => some _handle_mood_set
  | EventType.FACT_ADD => some _handle_fact_add
  | EventType.FACT_DECAY => some _handle_fact_decay
  | EventType.FACT_REINFORCE => some _handle_fact_reinforce
  | EventType.PLAYER_EVENT => some _handle_player_event
  | EventType.STATE_RESET => some _handle_state_reset
  | EventType.STATE_LOAD => some _handle_state_load
  | EventType.TRANSACTION_BEGIN => some _handle_noop
  | EventType.TRANSACTION_COMMIT => some _handle_noop
  | EventType.TRANSACTION_ABORT => some _handle_noop
  | _ => none

/-- reducer.reduce_state.  `now` is the wall-clock string an interior
`datetime.now()` call would observe (only _handle_fact_add reads it). -/
def reduce_state (now : String) (state : RFSNState) (event : StateEvent)
    (facts : Option (List Fact)) : ReduceResult :=
  match _EVENT_HANDLERS event.event_type with
  | none => (state, facts, none)
  | some handler => handler now state facts event.payload

/-- reducer.reduce_events: left fold of reduce_state over an event list. -/
def reduce_events (now : String) (initial_state : RFSNState)
    (events : List StateEvent) (initial_facts : Option (List Fact)) :
    RFSNState × Option (List Fact) :=
  events.foldl
    (fun acc event =>
      let r := reduce_state now acc.1 event acc.2
      (r.1, r.2.1))
    (initial_state, initial_facts)

/-! ## Event factories (core/state/event_types.py) -/

/-- event_types.affinity_delta_event. -/
def affinity_delta_event (npc_id : String) (delta : Rat) (reason : String)
    (convo_id : Option String) : StateEvent :=
  { event_type := EventType.AFFINITY_DELTA
    npc_id := npc_id
    payload := { delta := some delta, reason := some reason }
    convo_id := convo_id
    source := "affinity_delta_event" }

/-- event_types.mood_set_event. -/
def mood_set_event (npc_id : String) (mood : String)
    (convo_id : Option String) : StateEvent :=
  { event_type := EventType.MOOD_SET
    npc_id := npc_id
    payload := { mood := some mood }
    convo_id := convo_id
    source := "mood_set_event" }

/-- event_types.fact_add_event. -/
def fact_add_event (npc_id : String) (text : String) (tags : List String)
    (salience : Rat) (convo_id : Option String) : StateEvent :=
  { event_type := EventType.FACT_ADD
    npc_id := npc_id
    payload := { text := some text, tags := some tags, salience := some salience }
    convo_id := convo_id
    source := "fact_add_event" }

/-- event_types.turn_add_event. -/
def turn_add_event (npc_id : String) (role : String) (content : String)
    (convo_id : Option String) : StateEvent :=
  { event_type := EventType.TURN_ADD
    npc_id := npc_id
    payload := { role := some role, content := some content }
    convo_id := convo_id
    source := "turn_add_event" }

/-- event_types.player_event. -/
def player_event (npc_id : String) (event_type_str : String) (strength : Rat)
    (tags : List String) (convo_id : Option String) : StateEvent :=
  { event_type := EventType.PLAYER_EVENT
    npc_id := npc_id
    payload := { player_event_type := some event_type_str
                 strength := some strength
                 tags := some tags }
    convo_id := convo_id
    source := "player_event" }

/-- event_types.transaction_begin_event. -/
def transaction_begin_event (npc_id : String) (convo_id : String) : StateEvent :=
  { event_type := EventType.TRANSACTION_BEGIN
    npc_id := npc_id
    payload := {}
    convo_id := some convo_id
    source := "transaction" }

/-- event_types.transaction_commit_event. -/
def transaction_commit_event (npc_id : String) (convo_id : String) : StateEvent :=
  { event_type := EventType.TRANSACTION_COMMIT
    npc_id := npc_id
    payload := {}
    convo_id := some convo_id
    source := "transaction" }

/-- event_types.transaction_abort_event. -/
def transaction_abort_event (npc_id : String) (convo_id : String)
    (reason : String) : StateEvent :=
  { event_type := EventType.TRANSACTION_ABORT
    npc_id := npc_id
    payload := { reason := some reason }
    convo_id := some convo_id
    source := "transaction" }

/-! ## StateStore (core/state/store.py)

The store's reentrant lock serializes dispatches; each dispatch is embedded
as one pure transition on the store value.  `dispatchTr` additionally
returns the list of events passed to `reduce_state` during that dispatch
(the reducer trace), which is empty on the begin/buffer/abort paths. -/

/-- store.Transaction: a buffered transaction awaiting commit or abort. -/
structure Transaction where
  convo_id : String
  npc_id : String
  events : List StateEvent := []
  started_at : String := ""
deriving DecidableEq

/-- store.StateStore fields guarded by its lock.  Subscribers are omitted
from the state: storing opaque callables adds nothing provable, and
`_apply_event_exc` below models their invocation explicitly. -/
structure StateStore where
  _state : RFSNState
  _facts : List Fact
  _seq : Nat
  _max_event_log : Nat
  _event_log : List StateEvent
  _transactions : List (String × Transaction)
deriving DecidableEq

/-- StateStore.__init__ (deep copies are identities on immutable values). -/
def StateStore.init (initial_state : RFSNState)
    (initial_facts : Option (List Fact)) (max_event_log : Nat) :
    StateStore :=
  { _state := initial_state
    _facts := initial_facts.getD []
    _seq := 0
    _max_event_log := max_event_log
    _event_log := []
    _transactions := [] }

/-- Removal of a dict key (dict.pop): drops the first matching entry. -/
def dict_pop {α : Type} (key : String) : List (String × α) → List (String × α)
  | [] => []
  | p :: rest => if p.1 = key then rest else p :: dict_pop key rest

/-- In-place update of the Transaction stored under `key`
(`self._transactions[cid].events.append(event)`). -/
def dict_buffer (key : String) (event : StateEvent) :
    List (String × Transaction) → List (String × Transaction) :=
  List.map (fun p =>
    if p.1 = key then (p.1, { p.2 with events := p.2.events ++ [event] }) else p)

/-- Append to a `deque(maxlen=maxlen)`: the oldest entries are evicted once
the bound is exceeded. -/
def deque_append (maxlen : Nat) (log : List StateEvent) (e : StateEvent) :
    List StateEvent :=
  let l := log ++ [e]
  if maxlen < l.length then l.drop (l.length - maxlen) else l

/-- Python truthiness of the optional convo_id string. -/
def convo_truthy : Option String → Bool
  | none => false
  | some c => !(c = "")

/-- A reducer as seen through the store's try/except: it may raise. -/
abbrev ReducerFn :=
  RFSNState → StateEvent → Option (List Fact) → Except String ReduceResult

/-- A subscriber callback, which may raise. -/
abbrev SubscriberFn := RFSNState → StateEvent → Except String Unit

/-- StateStore._apply_event, generic in the (possibly raising) reducer and
subscriber callbacks so the try/except structure is visible: a reducer
error leaves the store untouched and yields False; each subscriber runs
under its own inner try/except, so its outcome never reaches the store. -/
def _apply_event_exc (reducer : ReducerFn) (subscribers : List SubscriberFn)
    (store : StateStore) (event : StateEvent) : Bool × StateStore :=
  match reducer store._state event (some store._facts) with
  | Except.error _ => (false, store)
  | Except.ok r =>
    let store := { store with _state := r.1, _facts := r.2.1.getD store._facts }
    let _ := subscribers.map (fun sub => sub store._state event)
    (true, store)

/-- StateStore._apply_event under the actual reducer, which is total in
this embedding (payloads are well typed), so the except branch is dead. -/
def _apply_event (env : Env) (store : StateStore) (event : StateEvent) :
    Bool × StateStore :=
  _apply_event_exc (fun s e f => Except.ok (reduce_state env.now s e f)) []
    store event

/-- StateStore._begin_transaction: `convo_id or str(uuid.uuid4())`, no-op
when the id is already active. -/
def _begin_transaction (env : Env) (store : StateStore) (event : StateEvent) :
    StateStore :=
  let convo_id :=
    match event.convo_id with
    | some c => if c = "" then env.fresh_uuid else c
    | none => env.fresh_uuid
  match dict_get convo_id store._transactions with
  | some _ => store
  | none =>
    { store with _transactions := store._transactions ++
        [(convo_id, { convo_id := convo_id
                      npc_id := event.npc_id
                      events := []
                      started_at := env.now })] }

/-- StateStore._commit_transaction, applying buffered events through the
supplied apply function; also returns the buffered events replayed. -/
def _commit_transaction (applyFn : StateStore → StateEvent → Bool × StateStore)
    (store : StateStore) (event : StateEvent) :
    Bool × StateStore × List StateEvent :=
  match event.convo_id with
  | none => (false, store, [])
  | some convo_id =>
    if convo_id = "" then (false, store, [])
    else
      match dict_get convo_id store._transactions with
      | none => (false, store, [])
      | some txn =>
        let store := { store with
          _transactions := dict_pop convo_id store._transactions }
        let store := txn.events.foldl (fun acc ev => (applyFn acc ev).2) store
        (true, store, txn.events)

/-- StateStore._abort_transaction: pop and discard, never touching the
reducer. -/
def _abort_transaction (store : StateStore) (event : StateEvent) : StateStore :=
  match event.convo_id with
  | none => store
  | some convo_id =>
    if convo_id = "" then store
    else
      match dict_get convo_id store._transactions with
      | none => store
      | some _ =>
        { store with _transactions := dict_pop convo_id store._transactions }

/-- StateStore.dispatch, generic in the apply function and instrumented
with the reducer trace: the result is ((applied, new store), events passed
to the reducer during this dispatch). -/
def dispatchCore (applyFn : StateStore → StateEvent → Bool × StateStore)
    (env : Env) (store : StateStore) (event : StateEvent) :
    (Bool × StateStore) × List StateEvent :=
  let seq := store._seq + 1
  let event := { event with seq := seq }
  let store := { store with
    _seq := seq
    _event_log := deque_append store._max_event_log store._event_log event }
  if event.event_type = EventType.TRANSACTION_BEGIN then
    ((false, _begin_transaction env store event), [])
  else if event.event_type = EventType.TRANSACTION_COMMIT then
    let r := _commit_transaction applyFn store event
    ((r.1, r.2.1), r.2.2)
  else if event.event_type = EventType.TRANSACTION_ABORT then
    ((false, _abort_transaction store event), [])
  else if convo_truthy event.convo_id &&
      (dict_get (event.convo_id.getD "") store._transactions).isSome then
    let store := { store with
      _transactions :=
        dict_buffer (event.convo_id.getD "") event store._transactions }
    ((false, store), [])
  else
    (applyFn store event, [event])

/-- dispatch with its reducer trace, under the actual (total) reducer. -/
def dispatchTr (env : Env) (store : StateStore) (event : StateEvent) :
    (Bool × StateStore) × List StateEvent :=
  dispatchCore (_apply_event env) env store event

/-- StateStore.dispatch. -/
def dispatch (env : Env) (store : StateStore) (event : StateEvent) :
    Bool × StateStore :=
  (dispatchTr env store event).1

/-- StateStore.dispatch under a possibly raising reducer and the given
subscriber callbacks. -/
def dispatch_exc (reducer : ReducerFn) (subscribers : List SubscriberFn)
    (env : Env) (store : StateStore) (event : StateEvent) :
    (Bool × StateStore) × List StateEvent :=
  dispatchCore (_apply_event_exc reducer subscribers) env store event

/-- StateStore.get_snapshot (deep copy = identity on immutable values). -/
def get_snapshot (store : StateStore) : RFSNState := store._state

/-- StateStore.get_facts_snapshot. -/
def get_facts_snapshot (store : StateStore) : List Fact := store._facts

/-- A sequence of dispatches, returning the final store. -/
def dispatch_list (env : Env) (store : StateStore) (events : List StateEvent) :
    StateStore :=
  events.foldl (fun acc e => (dispatch env acc e).2) store

/-- A sequence of dispatches with the concatenated reducer trace. -/
def dispatch_list_tr (env : Env) (store : StateStore)
    (events : List StateEvent) : StateStore × List StateEvent :=
  events.foldl
    (fun acc e =>
      let r := dispatchTr env acc.1 e
      (r.1.2, acc.2 ++ r.2))
    (store, [])

/-! ## BoundedQueue (core/queues.py) -/

/-- queues.DropPolicy. -/
inductive DropPolicy
  | OLDEST | NEWEST | BLOCK
deriving DecidableEq

/-- queues.DropEvent.  The `item_type` field (the Python runtime type name
of the dropped item) has no counterpart for opaque items and is omitted. -/
structure DropEvent where
  stage : String
  timestamp : String
  policy : DropPolicy
  queue_size : Nat
deriving DecidableEq

/-- queues.BoundedQueue.  The `on_drop` callback runs under its own
try/except and never reaches the queue state, so it is omitted. -/
structure BoundedQueue (T : Type) where
  maxsize : Nat := 3
  drop_policy : DropPolicy := DropPolicy.OLDEST
  stage : String := "unknown"
  queue : List T := []
  _put_count : Nat := 0
  _get_count : Nat := 0
  _drop_count : Nat := 0
  _drops : List DropEvent := []

/-- BoundedQueue._record_drop; `now` is the datetime.now() reading stamped
into the DropEvent. -/
def _record_drop {T : Type} (now : String) (q : BoundedQueue T) :
    BoundedQueue T :=
  let q := { q with _drop_count := q._drop_count + 1 }
  { q with _drops := q._drops ++
      [{ stage := q.stage
         timestamp := now
         policy := q.drop_policy
         queue_size := q.queue.length }] }

/-- BoundedQueue.put.  Under `BLOCK` on a full queue the Python caller
waits on the not-full condition; with no concurrent consumer (the setting
of every claim here) that wait can only time out, returning False with the
queue unchanged.  The `OLDEST`-on-empty branch is unreachable whenever
`1 ≤ maxsize` (in Python it would be `popleft` on an empty deque). -/
def BoundedQueue.put {T : Type} (now : String) (q : BoundedQueue T)
    (item : T) : Bool × BoundedQueue T :=
  let q := { q with _put_count := q._put_count + 1 }
  if q.maxsize ≤ q.queue.length then
    match q.drop_policy with
    | DropPolicy.OLDEST =>
      match q.queue with
      | [] => (true, { q with queue := [item] })
      | _ :: rest =>
        let q := { q with queue := rest }
        let q := _record_drop now q
        (true, { q with queue := q.queue ++ [item] })
    | DropPolicy.NEWEST => (false, _record_drop now q)
    | DropPolicy.BLOCK => (false, q)
  else
    (true, { q with queue := q.queue ++ [item] })

/-- BoundedQueue.size. -/
def BoundedQueue.size {T : Type} (q : BoundedQueue T) : Nat := q.queue.length

/-- A flood: a sequence of puts with no intervening gets. -/
def BoundedQueue.put_all {T : Type} (now : String) (q : BoundedQueue T)
    (items : List T) : BoundedQueue T :=
  items.foldl (fun acc it => (BoundedQueue.put now acc it).2) q

/-! ## StreamTransaction (streaming/transaction.py, streaming/frames.py) -/

/-- The metrics dictionary built by StreamTransaction.commit. -/
structure Metrics where
  latency_ms : Rat
  text_frames : Nat
  audio_chunks : Nat
  events_applied : Nat
  metadata : List (String × String)
deriving DecidableEq

/-- frames.Frame and its variants, as one tagged union.  Argument order in
every variant: convo_id, npc_id, seq, timestamp, then the variant fields. -/
inductive Frame
  | START (convo_id npc_id : String) (seq : Nat) (timestamp : String)
      (player_input : String)
  | TEXT (convo_id npc_id : String) (seq : Nat) (timestamp : String)
      (delta : String) (is_final : Bool)
  | AUDIO (convo_id npc_id : String) (seq : Nat) (timestamp : String)
      (chunk_id : Nat) (audio_data : List Nat) (sample_rate : Nat)
  | COMMIT (convo_id npc_id : String) (seq : Nat) (timestamp : String)
      (final_text : String) (metrics : Metrics)
      (state_changes : List StateEvent)
  | ABORT (convo_id npc_id : String) (seq : Nat) (timestamp : String)
      (reason : String) (error_code : Option String)
  | METADATA (convo_id npc_id : String) (seq : Nat) (timestamp : String)
      (key : String) (value : String)
deriving DecidableEq

/-- isinstance(f, FrameText). -/
def Frame.is_text : Frame → Bool
  | Frame.TEXT _ _ _ _ _ _ => true
  | _ => false

/-- Python dict assignment `d[key] = value` on an association list:
overwrite in place, else append. -/
def dict_set {α : Type} (key : String) (v : α) (l : List (String × α)) :
    List (String × α) :=
  if (dict_get key l).isSome then
    l.map (fun p => if p.1 = key then (p.1, v) else p)
  else l ++ [(key, v)]

/-- transaction.StreamTransaction.  `_start_time` keeps the epoch-ms view
of the datetime.now() reading at start; metadata values are strings (the
embedding of the Python Any).  The `_on_frame` callback runs under its own
try/except and never reaches this state, so it is omitted. -/
structure StreamTransaction where
  npc_id : String
  store : StateStore
  convo_id : String
  _seq : Nat := 0
  _started : Bool := false
  _committed : Bool := false
  _aborted : Bool := false
  _start_time : Option Rat := none
  _text_buffer : List String := []
  _audio_chunks : List (List Nat) := []
  _pending_events : List StateEvent := []
  _frames : List Frame := []
  _metadata : List (String × String) := []
deriving DecidableEq

/-- StreamTransaction.is_active. -/
def StreamTransaction.is_active (txn : StreamTransaction) : Bool :=
  txn._started && !txn._committed && !txn._aborted

/-- StreamTransaction.final_text. -/
def StreamTransaction.final_text (txn : StreamTransaction) : String :=
  String.join txn._text_buffer

/-- StreamTransaction._next_seq. -/
def _next_seq (txn : StreamTransaction) : Nat × StreamTransaction :=
  let txn := { txn with _seq := txn._seq + 1 }
  (txn._seq, txn)

/-- StreamTransaction._emit_frame (the frame callback is external). -/
def _emit_frame (txn : StreamTransaction) (frame : Frame) : StreamTransaction :=
  { txn with _frames := txn._frames ++ [frame] }

/-- StreamTransaction.start. -/
def StreamTransaction.start (env : Env) (txn : StreamTransaction)
    (player_input : String) : Except String (Frame × StreamTransaction) :=
  if txn._started then Except.error "Transaction already started"
  else
    let txn := { txn with _started := true, _start_time := some env.now_ms }
    let txn := { txn with store :=
      (dispatch env txn.store
        (transaction_begin_event txn.npc_id txn.convo_id)).2 }
    let s := _next_seq txn
    let frame := Frame.START txn.convo_id txn.npc_id s.1 env.now player_input
    let txn := _emit_frame s.2 frame
    let txn := { txn with _pending_events := txn._pending_events ++
      [turn_add_event txn.npc_id "user" player_input (some txn.convo_id)] }
    Except.ok (frame, txn)

/-- StreamTransaction.add_text. -/
def StreamTransaction.add_text (env : Env) (txn : StreamTransaction)
    (delta : String) (is_final : Bool) :
    Except String (Frame × StreamTransaction) :=
  if !txn.is_active then Except.error "Transaction not active"
  else
    let txn := { txn with _text_buffer := txn._text_buffer ++ [delta] }
    let s := _next_seq txn
    let frame :=
      Frame.TEXT txn.convo_id txn.npc_id s.1 env.now delta is_final
    Except.ok (frame, _emit_frame s.2 frame)

/-- StreamTransaction.add_audio. -/
def StreamTransaction.add_audio (env : Env) (txn : StreamTransaction)
    (audio_data : List Nat) (sample_rate : Nat) :
    Except String (Frame × StreamTransaction) :=
  if !txn.is_active then Except.error "Transaction not active"
  else
    let chunk_id := txn._audio_chunks.length
    let txn := { txn with _audio_chunks := txn._audio_chunks ++ [audio_data] }
    let s := _next_seq txn
    let frame := Frame.AUDIO txn.convo_id txn.npc_id s.1 env.now chunk_id
      audio_data sample_rate
    Except.ok (frame, _emit_frame s.2 frame)

/-- StreamTransaction.add_metadata (no is_active guard in the source). -/
def StreamTransaction.add_metadata (txn : StreamTransaction)
    (key value : String) : StreamTransaction :=
  { txn with _metadata := dict_set key value txn._metadata }

/-- StreamTransaction.queue_affinity_change. -/
def StreamTransaction.queue_affinity_change (txn : StreamTransaction)
    (delta : Rat) (reason : String) : Except String StreamTransaction :=
  if !txn.is_active then Except.error "Transaction not active"
  else
    Except.ok { txn with _pending_events := txn._pending_events ++
      [affinity_delta_event txn.npc_id delta reason (some txn.convo_id)] }

/-- StreamTransaction.queue_mood_change. -/
def StreamTransaction.queue_mood_change (txn : StreamTransaction)
    (mood : String) : Except String StreamTransaction :=
  if !txn.is_active then Except.error "Transaction not active"
  else
    Except.ok { txn with _pending_events := txn._pending_events ++
      [mood_set_event txn.npc_id mood (some txn.convo_id)] }

/-- StreamTransaction.queue_fact. -/
def StreamTransaction.queue_fact (txn : StreamTransaction) (text : String)
    (tags : List String) (salience : Rat) : Except String StreamTransaction :=
  if !txn.is_active then Except.error "Transaction not active"
  else
    Except.ok { txn with _pending_events := txn._pending_events ++
      [fact_add_event txn.npc_id text tags salience (some txn.convo_id)] }

/-- StreamTransaction.commit. -/
def StreamTransaction.commit (env : Env) (txn : StreamTransaction) :
    Except String (Frame × StreamTransaction) :=
  if !txn.is_active then Except.error "Transaction not active"
  else
    let txn := { txn with _committed := true }
    let final_text := txn.final_text
    let elapsed_ms :=
      match txn._start_time with
      | some t0 => env.now_ms - t0
      | none => 0.0
    let metrics : Metrics :=
      { latency_ms := elapsed_ms
        text_frames := (txn._frames.filter Frame.is_text).length
        audio_chunks := txn._audio_chunks.length
        events_applied := txn._pending_events.length
        metadata := txn._metadata }
    let state_changes := txn._pending_events
    let txn := { txn with _pending_events := txn._pending_events ++
      [turn_add_event txn.npc_id "assistant" final_text (some txn.convo_id)] }
    let txn := { txn with store :=
      txn._pending_events.foldl (fun acc e => (dispatch env acc e).2) txn.store }
    let txn := { txn with store :=
      (dispatch env txn.store
        (transaction_commit_event txn.npc_id txn.convo_id)).2 }
    let s := _next_seq txn
    let frame := Frame.COMMIT txn.convo_id txn.npc_id s.1 env.now final_text
      metrics state_changes
    Except.ok (frame, _emit_frame s.2 frame)

/-- StreamTransaction.abort. -/
def StreamTransaction.abort (env : Env) (txn : StreamTransaction)
    (reason : String) (error_code : Option String) :
    Except String (Frame × StreamTransaction) :=
  if !txn.is_active then Except.error "Transaction not active"
  else
    let txn := { txn with _aborted := true }
    let txn := { txn with store :=
      (dispatch env txn.store
        (transaction_abort_event txn.npc_id txn.convo_id reason)).2 }
    let s := _next_seq txn
    let frame :=
      Frame.ABORT txn.convo_id txn.npc_id s.1 env.now reason error_code
    Except.ok (frame, _emit_frame s.2 frame)

/-! ## Shared fixtures for witnesses and counterexamples -/

/-- A concrete NPC state used by concrete-input theorems. -/
def lydia : RFSNState :=
  { npc_name := "Lydia"
    role := "Housecarl"
    affinity := 0.5
    mood := "Neutral"
    player_name := "Player"
    player_playstyle := "Explorer" }

/-- A concrete environment reading. -/
def env0 : Env :=
  { now := "2024-01-01T00:00:00", now_ms := 0, fresh_uuid := "uuid-0" }

/-! ## Reducer-level claims -/

/-- C2 (code evaluated at the failing input): `_handle_fact_add` stamps the
new Fact with a `datetime.now()` read taken inside the reducer, so two
calls of reduce_state on the same state, FACT_ADD event and facts list
return different results when the wall clock has moved to the next minute;
the caller-supplied `event.timestamp` field is ignored. -/
theorem fact_add_reads_wall_clock :
    reduce_state "2024-01-01 10:00" lydia
        (fact_add_event "lydia" "likes apples" [] 0.7 none) (some []) ≠
      reduce_state "2024-01-01 10:01" lydia
        (fact_add_event "lydia" "likes apples" [] 0.7 none) (some []) := by
  intro h
  exact absurd (congrArg (fun r => (r.2.1.getD []).map Fact.time) h) (by decide)

/-- A STATE_LOAD event whose state_dict carries an out-of-range affinity. -/
def load5_event : StateEvent :=
  { event_type := EventType.STATE_LOAD
    npc_id := "lydia"
    payload := { state_dict := some { affinity := some 5 } } }

/-- A STATE_RESET event whose payload carries an out-of-range affinity. -/
def reset5_event : StateEvent :=
  { event_type := EventType.STATE_RESET
    npc_id := "lydia"
    payload := { affinity := some 5 } }

/-- C3 counterexample: starting from a state with affinity 0.5 in range,
a STATE_LOAD (and likewise a STATE_RESET) whose payload carries
affinity = 5 leaves affinity 5 in the produced state — _handle_state_load
and _handle_state_reset install the payload value without clamping. -/
theorem clamp_not_applied_on_state_load_reset :
    (-1 ≤ lydia.affinity ∧ lydia.affinity ≤ 1) ∧
    (reduce_state "t" lydia load5_event none).1.affinity = 5 ∧
    ¬ ((reduce_state "t" lydia load5_event none).1.affinity ≤ 1) ∧
    (reduce_state "t" lydia reset5_event none).1.affinity = 5 ∧
    ¬ ((reduce_state "t" lydia reset5_event none).1.affinity ≤ 1) := by
  have hl : (reduce_state "t" lydia load5_event none).1.affinity = 5 := rfl
  have hr : (reduce_state "t" lydia reset5_event none).1.affinity = 5 := rfl
  refine ⟨⟨?_, ?_⟩, hl, ?_, hr, ?_⟩
  · show (-1 : Rat) ≤ 0.5
    norm_num
  · show (0.5 : Rat) ≤ 1
    norm_num
  · rw [hl]; norm_num
  · rw [hr]; norm_num

theorem clamp_pm1 (x : Rat) :
    -1 ≤ clamp x (-1.0) 1.0 ∧ clamp x (-1.0) 1.0 ≤ 1 := by
  have e1 : (-1.0 : Rat) = -1 := by norm_num
  have e2 : (1.0 : Rat) = 1 := by norm_num
  rw [e1, e2]
  unfold clamp
  split_ifs with h1 h2 <;> constructor <;> linarith

theorem affinity_delta_pm1 (now : String) (s : RFSNState)
    (f : Option (List Fact)) (p : Payload) :
    -1 ≤ (_handle_affinity_delta now s f p).1.affinity ∧
      (_handle_affinity_delta now s f p).1.affinity ≤ 1 := by
  simp only [_handle_affinity_delta]
  exact clamp_pm1 _

theorem player_event_pm1 (now : String) (s : RFSNState)
    (f : Option (List Fact)) (p : Payload) :
    -1 ≤ (_handle_player_event now s f p).1.affinity ∧
      (_handle_player_event now s f p).1.affinity ≤ 1 := by
  simp only [_handle_player_event]
  cases dict_get (p.player_event_type.getD "TALK") MOOD_MAP <;>
    simp only [] <;> exact clamp_pm1 _

theorem fact_add_affinity (now : String) (s : RFSNState)
    (f : Option (List Fact)) (p : Payload) :
    (_handle_fact_add now s f p).1.affinity = s.affinity := by
  unfold _handle_fact_add
  cases f with
  | none => rfl
  | some fs => dsimp only; split_ifs <;> rfl

theorem fact_decay_affinity (now : String) (s : RFSNState)
    (f : Option (List Fact)) (p : Payload) :
    (_handle_fact_decay now s f p).1.affinity = s.affinity := by
  unfold _handle_fact_decay
  cases f <;> rfl

theorem fact_reinforce_affinity (now : String) (s : RFSNState)
    (f : Option (List Fact)) (p : Payload) :
    (_handle_fact_reinforce now s f p).1.affinity = s.affinity := by
  unfold _handle_fact_reinforce
  cases f with
  | none => rfl
  | some fs => dsimp only; split_ifs <;> rfl

/-- C3 amended: the affinity range [-1, 1] is preserved by reduce_state for
every event type except STATE_RESET and STATE_LOAD, whose handlers install
the payload affinity without re-clamping (the counterexample above). -/
theorem clamp_invariant_amended (now : String) (state : RFSNState)
    (facts : Option (List Fact)) (event : StateEvent)
    (h1 : -1 ≤ state.affinity) (h2 : state.affinity ≤ 1)
    (hreset : event.event_type ≠ EventType.STATE_RESET)
    (hload : event.event_type ≠ EventType.STATE_LOAD) :
    -1 ≤ (reduce_state now state event facts).1.affinity ∧
      (reduce_state now state event facts).1.affinity ≤ 1 := by
  rcases event with ⟨t, npc, payload, ts, seq, convo, src⟩
  simp only at hreset hload
  cases t <;> simp only [reduce_state, _EVENT_HANDLERS]
  case AFFINITY_DELTA => exact affinity_delta_pm1 now state facts payload
  case MOOD_SET => exact ⟨h1, h2⟩
  case FACT_ADD =>
    rw [fact_add_affinity]; exact ⟨h1, h2⟩
  case FACT_REMOVE => exact ⟨h1, h2⟩
  case FACT_DECAY =>
    rw [fact_decay_affinity]; exact ⟨h1, h2⟩
  case FACT_REINFORCE =>
    rw [fact_reinforce_affinity]; exact ⟨h1, h2⟩
  case TURN_ADD => exact ⟨h1, h2⟩
  case TURN_CLEAR => exact ⟨h1, h2⟩
  case PLAYER_EVENT => exact player_event_pm1 now state facts payload
  case RELATIONSHIP_UPDATE => exact ⟨h1, h2⟩
  case STATE_RESET => exact absurd rfl hreset
  case STATE_LOAD => exact absurd rfl hload
  case STATE_SNAPSHOT => exact ⟨h1, h2⟩
  case TRANSACTION_BEGIN => exact ⟨h1, h2⟩
  case TRANSACTION_COMMIT => exact ⟨h1, h2⟩
  case TRANSACTION_ABORT => exact ⟨h1, h2⟩

/-- Witness for the amended C3 theorem at a concrete in-range state and an
AFFINITY_DELTA event with a large delta. -/
theorem clamp_invariant_amended_witness :
    -1 ≤ (reduce_state "t" lydia
        (affinity_delta_event "lydia" 10 "gift" none) (some [])).1.affinity ∧
      (reduce_state "t" lydia
        (affinity_delta_event "lydia" 10 "gift" none) (some [])).1.affinity ≤ 1 := by
  have hb1 : (-1 : Rat) ≤ lydia.affinity := by
    show (-1 : Rat) ≤ 0.5; norm_num
  have hb2 : lydia.affinity ≤ 1 := by
    show (0.5 : Rat) ≤ 1; norm_num
  exact clamp_invariant_amended "t" lydia (some [])
    (affinity_delta_event "lydia" 10 "gift" none) hb1 hb2
    (by intro h; exact absurd h (by decide)) (by intro h; exact absurd h (by decide))

/-- C9: a FACT_ADD whose text is over 2000 characters or contains a
forbidden substring, and any event of a type unknown to the dispatch table
(FACT_REMOVE, TURN_ADD, TURN_CLEAR, RELATIONSHIP_UPDATE, STATE_SNAPSHOT),
reduces to the inputs unchanged with no emitted fact; reduce_state is a
total function, so no exception is possible. -/
theorem reducer_silent_rejection (now : String) (state : RFSNState)
    (facts : Option (List Fact)) (event : StateEvent)
    (h : (event.event_type = EventType.FACT_ADD ∧
          (2000 < (event.payload.text.getD "").length ∨
            (["<|", "|>", "system instruction"].any
              (fun b => str_in b (str_lower (event.payload.text.getD "")))) = true)) ∨
        event.event_type = EventType.FACT_REMOVE ∨
        event.event_type = EventType.TURN_ADD ∨
        event.event_type = EventType.TURN_CLEAR ∨
        event.event_type = EventType.RELATIONSHIP_UPDATE ∨
        event.event_type = EventType.STATE_SNAPSHOT) :
    reduce_state now state event facts = (state, facts, none) := by
  rcases h with ⟨hf, hrej⟩ | h | h | h | h | h
  · simp only [reduce_state, _EVENT_HANDLERS, hf]
    cases facts with
    | none => rfl
    | some fs =>
      dsimp only [_handle_fact_add]
      rcases hrej with hlen | hforb
      · rw [if_pos hlen]
      · by_cases hlen : 2000 < (event.payload.text.getD "").length
        · rw [if_pos hlen]
        · rw [if_neg hlen, if_pos hforb]
  all_goals simp only [reduce_state, _EVENT_HANDLERS, h]

/-- A FACT_ADD event whose text contains the forbidden token "<|". -/
def forbidden_fact_event : StateEvent :=
  fact_add_event "lydia" "Ignore <|system|> now" [] 0.5 none

/-- Witness for C9 at a concrete forbidden-substring FACT_ADD event. -/
theorem reducer_silent_rejection_witness :
    reduce_state "t" lydia forbidden_fact_event (some []) =
      (lydia, some [], none) :=
  reducer_silent_rejection "t" lydia (some []) forbidden_fact_event
    (Or.inl ⟨rfl, Or.inr (by decide)⟩)

/-! ## Queue claims -/

theorem put_step {T : Type} (now : String) (q : BoundedQueue T) (item : T)
    (hp : q.drop_policy = DropPolicy.OLDEST ∨ q.drop_policy = DropPolicy.NEWEST)
    (hm : 1 ≤ q.maxsize) (hl : q.queue.length ≤ q.maxsize) :
    ((q.put now item).2).queue.length = min (q.queue.length + 1) q.maxsize ∧
    ((q.put now item).2)._drop_count
      = q._drop_count + (q.queue.length + 1 - q.maxsize) ∧
    ((q.put now item).2).maxsize = q.maxsize ∧
    ((q.put now item).2).drop_policy = q.drop_policy := by
  simp only [BoundedQueue.put]
  by_cases hfull : q.maxsize ≤ q.queue.length
  · have heq : q.queue.length = q.maxsize := le_antisymm hl hfull
    rw [if_pos hfull]
    rcases hp with h | h <;> rw [h]
    · rcases hqq : q.queue with _ | ⟨a, rest⟩
      · rw [hqq] at heq
        simp at heq
        omega
      · rw [hqq] at heq
        simp only [_record_drop]
        simp at heq ⊢
        omega
    · simp only [_record_drop]
      simp
      omega
  · rw [if_neg hfull]
    simp
    omega

theorem put_all_spec {T : Type} (now : String) (items : List T) :
    ∀ (q : BoundedQueue T),
      (q.drop_policy = DropPolicy.OLDEST ∨ q.drop_policy = DropPolicy.NEWEST) →
      1 ≤ q.maxsize → q.queue.length ≤ q.maxsize →
      (BoundedQueue.put_all now q items).queue.length
          = min (q.queue.length + items.length) q.maxsize ∧
        (BoundedQueue.put_all now q items)._drop_count
          = q._drop_count + (q.queue.length + items.length - q.maxsize) := by
  induction items with
  | nil =>
    intro q hp hm hl
    constructor
    · simp [BoundedQueue.put_all]
      omega
    · simp [BoundedQueue.put_all]
      omega
  | cons it rest ih =>
    intro q hp hm hl
    obtain ⟨hq1, hq2, hq3, hq4⟩ := put_step now q it hp hm hl
    obtain ⟨hr1, hr2⟩ := ih ((q.put now it).2)
      (by rw [hq4]; exact hp)
      (by rw [hq3]; exact hm)
      (by rw [hq1, hq3]; omega)
    have hfold : BoundedQueue.put_all now q (it :: rest)
        = BoundedQueue.put_all now ((q.put now it).2) rest := rfl
    rw [hfold]
    refine ⟨?_, ?_⟩
    · rw [hr1, hq1, hq3]
      simp only [List.length_cons]
      omega
    · rw [hr2, hq1, hq2, hq3]
      simp only [List.length_cons]
      omega

/-- C8: a fresh BoundedQueue with capacity C under the OLDEST or NEWEST
policy, flooded with any list of puts and no intervening gets, never holds
more than C items, and once puts exceed C the drop counter equals
puts - C. -/
theorem queue_boundedness_flood {T : Type} (now stage : String)
    (policy : DropPolicy) (C : Nat) (items : List T)
    (hp : policy = DropPolicy.OLDEST ∨ policy = DropPolicy.NEWEST)
    (hC : 1 ≤ C) :
    let q0 : BoundedQueue T := { maxsize := C, drop_policy := policy, stage := stage }
    (BoundedQueue.put_all now q0 items).size ≤ C ∧
      (C < items.length →
        (BoundedQueue.put_all now q0 items)._drop_count = items.length - C) := by
  intro q0
  have h := put_all_spec now items q0 hp hC (by simp [q0])
  constructor
  · show (BoundedQueue.put_all now q0 items).queue.length ≤ C
    rw [h.1]
    simp [q0]
  · intro hlt
    rw [h.2]
    simp [q0]

/-- Witness for C8: capacity 2, OLDEST policy, three puts: size stays at 2
and exactly one drop is recorded. -/
theorem queue_boundedness_flood_witness :
    (BoundedQueue.put_all "t"
        ({ maxsize := 2, drop_policy := DropPolicy.OLDEST, stage := "s" } :
          BoundedQueue Nat) [10, 20, 30]).size ≤ 2 ∧
      (2 < ([10, 20, 30] : List Nat).length →
        (BoundedQueue.put_all "t"
            ({ maxsize := 2, drop_policy := DropPolicy.OLDEST, stage := "s" } :
              BoundedQueue Nat) [10, 20, 30])._drop_count
          = ([10, 20, 30] : List Nat).length - 2) :=
  queue_boundedness_flood "t" "s" DropPolicy.OLDEST 2 [10, 20, 30]
    (Or.inl rfl) (by decide)

/-! ## Store lemmas -/

/-- The transaction-control event types, handled by the store alone. -/
def is_txn_control (t : EventType) : Prop :=
  t = EventType.TRANSACTION_BEGIN ∨ t = EventType.TRANSACTION_COMMIT ∨
    t = EventType.TRANSACTION_ABORT

instance (t : EventType) : Decidable (is_txn_control t) := by
  unfold is_txn_control
  infer_instance

/-- The event as re-sequenced by dispatch. -/
def step_event (s : StateStore) (e : StateEvent) : StateEvent :=
  { e with seq := s._seq + 1 }

/-- The store after dispatch assigned the sequence number and logged the
event, before any branch runs. -/
def step_log (s : StateStore) (e : StateEvent) : StateStore :=
  { s with
    _seq := s._seq + 1
    _event_log := deque_append s._max_event_log s._event_log (step_event s e) }

theorem dict_get_none_iff {α : Type} (key : String) (l : List (String × α)) :
    dict_get key l = none ↔ ∀ p ∈ l, p.1 ≠ key := by
  induction l with
  | nil => simp [dict_get]
  | cons p rest ih =>
    by_cases h : p.1 = key
    · simp [dict_get, h]
    · simp [dict_get, h, ih]

theorem dict_get_last {α : Type} (key : String) (t : α)
    (l : List (String × α)) (h : ∀ p ∈ l, p.1 ≠ key) :
    dict_get key (l ++ [(key, t)]) = some t := by
  induction l with
  | nil => simp [dict_get]
  | cons p rest ih =>
    have hp : p.1 ≠ key := h p (by simp)
    rw [List.cons_append]
    simp only [dict_get, if_neg hp]
    exact ih (fun q hq => h q (by simp [hq]))

theorem dict_pop_last {α : Type} (key : String) (t : α)
    (l : List (String × α)) (h : ∀ p ∈ l, p.1 ≠ key) :
    dict_pop key (l ++ [(key, t)]) = l := by
  induction l with
  | nil => simp [dict_pop]
  | cons p rest ih =>
    have hp : p.1 ≠ key := h p (by simp)
    rw [List.cons_append]
    simp only [dict_pop, if_neg hp]
    rw [ih (fun q hq => h q (by simp [hq]))]

theorem dict_buffer_last (key : String) (e : StateEvent) (t : Transaction)
    (l : List (String × Transaction)) (h : ∀ p ∈ l, p.1 ≠ key) :
    dict_buffer key e (l ++ [(key, t)])
      = l ++ [(key, { t with events := t.events ++ [e] })] := by
  induction l with
  | nil => simp [dict_buffer]
  | cons p rest ih =>
    have hp : p.1 ≠ key := h p (by simp)
    rw [List.cons_append]
    simp only [dict_buffer, List.map_cons, if_neg hp]
    have := ih (fun q hq => h q (by simp [hq]))
    simp only [dict_buffer] at this
    rw [this]
    rfl

theorem reduce_state_some_facts (now : String) (st : RFSNState)
    (e : StateEvent) (f : List Fact) :
    ∃ g, (reduce_state now st e (some f)).2.1 = some g := by
  rcases e with ⟨t, npc, payload, ts, seq, convo, src⟩
  cases t <;>
    simp only [reduce_state, _EVENT_HANDLERS] <;>
    first
    | exact ⟨f, rfl⟩
    | skip
  case FACT_ADD =>
    dsimp only [_handle_fact_add]
    split_ifs <;> exact ⟨_, rfl⟩
  case FACT_DECAY =>
    dsimp only [_handle_fact_decay]
    exact ⟨_, rfl⟩
  case FACT_REINFORCE =>
    dsimp only [_handle_fact_reinforce]
    split_ifs <;> exact ⟨_, rfl⟩
  case STATE_LOAD =>
    dsimp only [_handle_state_load]
    cases payload.state_dict <;> exact ⟨f, rfl⟩

theorem reduce_events_cons (now : String) (st : RFSNState) (e : StateEvent)
    (es : List StateEvent) (f : Option (List Fact)) :
    reduce_events now st (e :: es) f
      = reduce_events now (reduce_state now st e f).1 es
          (reduce_state now st e f).2.1 := rfl

theorem reduce_events_some_facts (now : String) (es : List StateEvent) :
    ∀ (st : RFSNState) (f : List Fact),
      ∃ g, (reduce_events now st es (some f)).2 = some g := by
  induction es with
  | nil => intro st f; exact ⟨f, rfl⟩
  | cons e es ih =>
    intro st f
    obtain ⟨g, hg⟩ := reduce_state_some_facts now st e f
    rw [reduce_events_cons, hg]
    exact ih _ g

theorem _apply_event_spec (env : Env) (s : StateStore) (e : StateEvent) :
    _apply_event env s e =
      (true, { s with
        _state := (reduce_state env.now s._state e (some s._facts)).1
        _facts :=
          ((reduce_state env.now s._state e (some s._facts)).2.1).getD s._facts }) :=
  rfl

theorem apply_fold (env : Env) (events : List StateEvent) :
    ∀ (s : StateStore),
      events.foldl (fun acc ev => (_apply_event env acc ev).2) s
        = { s with
            _state := (reduce_events env.now s._state events (some s._facts)).1
            _facts :=
              ((reduce_events env.now s._state events (some s._facts)).2).getD
                s._facts } := by
  induction events with
  | nil => intro s; rfl
  | cons e es ih =>
    intro s
    obtain ⟨g, hg⟩ := reduce_state_some_facts env.now s._state e s._facts
    obtain ⟨g2, hg2⟩ := reduce_events_some_facts env.now es
      (reduce_state env.now s._state e (some s._facts)).1 g
    rw [List.foldl_cons, _apply_event_spec]
    dsimp only
    rw [ih]
    dsimp only
    rw [reduce_events_cons]
    rw [hg]
    simp only [Option.getD_some]
    rw [hg2]
    simp only [Option.getD_some]

theorem dispatchCore_begin
    (applyFn : StateStore → StateEvent → Bool × StateStore) (env : Env)
    (s : StateStore) (e : StateEvent)
    (he : e.event_type = EventType.TRANSACTION_BEGIN) :
    dispatchCore applyFn env s e
      = ((false, _begin_transaction env (step_log s e) (step_event s e)), []) := by
  simp [dispatchCore, step_log, step_event, he]

theorem dispatchCore_commit
    (applyFn : StateStore → StateEvent → Bool × StateStore) (env : Env)
    (s : StateStore) (e : StateEvent)
    (he : e.event_type = EventType.TRANSACTION_COMMIT) :
    dispatchCore applyFn env s e
      = (((_commit_transaction applyFn (step_log s e) (step_event s e)).1,
          (_commit_transaction applyFn (step_log s e) (step_event s e)).2.1),
        (_commit_transaction applyFn (step_log s e) (step_event s e)).2.2) := by
  simp [dispatchCore, step_log, step_event, he]

theorem dispatchCore_abort
    (applyFn : StateStore → StateEvent → Bool × StateStore) (env : Env)
    (s : StateStore) (e : StateEvent)
    (he : e.event_type = EventType.TRANSACTION_ABORT) :
    dispatchCore applyFn env s e
      = ((false, _abort_transaction (step_log s e) (step_event s e)), []) := by
  simp [dispatchCore, step_log, step_event, he]

theorem dispatchCore_buffer
    (applyFn : StateStore → StateEvent → Bool × StateStore) (env : Env)
    (s : StateStore) (e : StateEvent)
    (cid : String) (txn : Transaction) (hc : ¬ is_txn_control e.event_type)
    (hcid : e.convo_id = some cid) (hne : cid ≠ "")
    (hget : dict_get cid s._transactions = some txn) :
    dispatchCore applyFn env s e
      = ((false, { step_log s e with
          _transactions := dict_buffer cid (step_event s e) s._transactions }),
        []) := by
  have h1 : e.event_type ≠ EventType.TRANSACTION_BEGIN := fun h => hc (Or.inl h)
  have h2 : e.event_type ≠ EventType.TRANSACTION_COMMIT :=
    fun h => hc (Or.inr (Or.inl h))
  have h3 : e.event_type ≠ EventType.TRANSACTION_ABORT :=
    fun h => hc (Or.inr (Or.inr h))
  simp [dispatchCore, step_log, step_event, h1, h2, h3,
    convo_truthy, hcid, hne, hget]

theorem dispatchCore_apply_now
    (applyFn : StateStore → StateEvent → Bool × StateStore) (env : Env)
    (s : StateStore) (e : StateEvent)
    (hc : ¬ is_txn_control e.event_type)
    (hb : convo_truthy e.convo_id = false ∨
      dict_get (e.convo_id.getD "") s._transactions = none) :
    dispatchCore applyFn env s e
      = (applyFn (step_log s e) (step_event s e), [step_event s e]) := by
  have h1 : e.event_type ≠ EventType.TRANSACTION_BEGIN := fun h => hc (Or.inl h)
  have h2 : e.event_type ≠ EventType.TRANSACTION_COMMIT :=
    fun h => hc (Or.inr (Or.inl h))
  have h3 : e.event_type ≠ EventType.TRANSACTION_ABORT :=
    fun h => hc (Or.inr (Or.inr h))
  rcases hb with hb | hb
  · simp [dispatchCore, step_log, step_event, h1, h2, h3, hb]
  · rcases hcv : e.convo_id with _ | c
    · simp [dispatchCore, step_log, step_event, h1, h2, h3,
        convo_truthy, hcv]
    · rw [hcv] at hb
      simp only [Option.getD_some] at hb
      simp [dispatchCore, step_log, step_event, h1, h2, h3,
        convo_truthy, hcv, hb]

theorem dispatchTr_begin (env : Env) (s : StateStore) (e : StateEvent)
    (he : e.event_type = EventType.TRANSACTION_BEGIN) :
    dispatchTr env s e
      = ((false, _begin_transaction env (step_log s e) (step_event s e)), []) :=
  dispatchCore_begin (_apply_event env) env s e he

theorem dispatchTr_commit (env : Env) (s : StateStore) (e : StateEvent)
    (he : e.event_type = EventType.TRANSACTION_COMMIT) :
    dispatchTr env s e
      = (((_commit_transaction (_apply_event env) (step_log s e) (step_event s e)).1,
          (_commit_transaction (_apply_event env) (step_log s e) (step_event s e)).2.1),
        (_commit_transaction (_apply_event env) (step_log s e) (step_event s e)).2.2) :=
  dispatchCore_commit (_apply_event env) env s e he

theorem dispatchTr_abort (env : Env) (s : StateStore) (e : StateEvent)
    (he : e.event_type = EventType.TRANSACTION_ABORT) :
    dispatchTr env s e
      = ((false, _abort_transaction (step_log s e) (step_event s e)), []) :=
  dispatchCore_abort (_apply_event env) env s e he

theorem dispatchTr_buffer (env : Env) (s : StateStore) (e : StateEvent)
    (cid : String) (txn : Transaction) (hc : ¬ is_txn_control e.event_type)
    (hcid : e.convo_id = some cid) (hne : cid ≠ "")
    (hget : dict_get cid s._transactions = some txn) :
    dispatchTr env s e
      = ((false, { step_log s e with
          _transactions := dict_buffer cid (step_event s e) s._transactions }),
        []) :=
  dispatchCore_buffer (_apply_event env) env s e cid txn hc hcid hne hget

theorem dispatchTr_apply_now (env : Env) (s : StateStore) (e : StateEvent)
    (hc : ¬ is_txn_control e.event_type)
    (hb : convo_truthy e.convo_id = false ∨
      dict_get (e.convo_id.getD "") s._transactions = none) :
    dispatchTr env s e
      = (_apply_event env (step_log s e) (step_event s e), [step_event s e]) :=
  dispatchCore_apply_now (_apply_event env) env s e hc hb

theorem begin_open_noop (env : Env) (st : StateStore) (e : StateEvent)
    (cid : String) (txn : Transaction) (hcid : e.convo_id = some cid)
    (hne : cid ≠ "") (hget : dict_get cid st._transactions = some txn) :
    _begin_transaction env st e = st := by
  simp [_begin_transaction, hcid, hne, hget]

theorem begin_fresh (env : Env) (st : StateStore) (e : StateEvent)
    (cid : String) (hcid : e.convo_id = some cid) (hne : cid ≠ "")
    (hget : dict_get cid st._transactions = none) :
    _begin_transaction env st e
      = { st with _transactions := st._transactions ++
          [(cid, { convo_id := cid
                   npc_id := e.npc_id
                   events := []
                   started_at := env.now })] } := by
  simp [_begin_transaction, hcid, hne, hget]

theorem commit_found (applyFn : StateStore → StateEvent → Bool × StateStore)
    (st : StateStore) (e : StateEvent) (cid : String) (txn : Transaction)
    (hcid : e.convo_id = some cid) (hne : cid ≠ "")
    (hget : dict_get cid st._transactions = some txn) :
    _commit_transaction applyFn st e
      = (true,
        txn.events.foldl (fun acc ev => (applyFn acc ev).2)
          { st with _transactions := dict_pop cid st._transactions },
        txn.events) := by
  simp [_commit_transaction, hcid, hne, hget]

theorem commit_missing (applyFn : StateStore → StateEvent → Bool × StateStore)
    (st : StateStore) (e : StateEvent)
    (h : e.convo_id = none ∨ e.convo_id = some "" ∨
      dict_get (e.convo_id.getD "") st._transactions = none) :
    _commit_transaction applyFn st e = (false, st, []) := by
  rcases hcv : e.convo_id with _ | c
  · simp [_commit_transaction, hcv]
  · by_cases hc : c = ""
    · simp [_commit_transaction, hcv, hc]
    · rcases h with h | h | h
      · rw [hcv] at h; exact absurd h (by simp)
      · rw [hcv] at h
        exact absurd (Option.some.inj h) hc
      · rw [hcv] at h
        simp only [Option.getD_some] at h
        simp [_commit_transaction, hcv, hc, h]

theorem abort_found (st : StateStore) (e : StateEvent) (cid : String)
    (txn : Transaction) (hcid : e.convo_id = some cid) (hne : cid ≠ "")
    (hget : dict_get cid st._transactions = some txn) :
    _abort_transaction st e
      = { st with _transactions := dict_pop cid st._transactions } := by
  simp [_abort_transaction, hcid, hne, hget]

theorem abort_missing (st : StateStore) (e : StateEvent)
    (h : e.convo_id = none ∨ e.convo_id = some "" ∨
      dict_get (e.convo_id.getD "") st._transactions = none) :
    _abort_transaction st e = st := by
  rcases hcv : e.convo_id with _ | c
  · simp [_abort_transaction, hcv]
  · by_cases hc : c = ""
    · simp [_abort_transaction, hcv, hc]
    · rcases h with h | h | h
      · rw [hcv] at h; exact absurd h (by simp)
      · rw [hcv] at h
        exact absurd (Option.some.inj h) hc
      · rw [hcv] at h
        simp only [Option.getD_some] at h
        simp [_abort_transaction, hcv, hc, h]

/-! ## Dispatch contract claims -/

/-- C4: the dispatch return-value contract.  (1) TRANSACTION_BEGIN returns
False; (2) a re-begin on an already-open convo_id leaves the store exactly
as after sequencing and logging — no second transaction, no lost buffered
events; (3) TRANSACTION_COMMIT naming an open transaction returns True
after replaying the buffered events through the reducer in order; (4)
TRANSACTION_ABORT returns False and passes nothing to the reducer; (5) an
event whose truthy convo_id names an open transaction is buffered and
returns False with state and facts untouched; (6) otherwise the event is
reduced immediately and returns True. -/
theorem dispatch_return_contract :
    (∀ (env : Env) (s : StateStore) (e : StateEvent),
      e.event_type = EventType.TRANSACTION_BEGIN →
      (dispatch env s e).1 = false) ∧
    (∀ (env : Env) (s : StateStore) (e : StateEvent) (cid : String)
        (txn : Transaction),
      e.event_type = EventType.TRANSACTION_BEGIN → e.convo_id = some cid →
      cid ≠ "" → dict_get cid s._transactions = some txn →
      (dispatch env s e).2 = step_log s e) ∧
    (∀ (env : Env) (s : StateStore) (e : StateEvent) (cid : String)
        (txn : Transaction),
      e.event_type = EventType.TRANSACTION_COMMIT → e.convo_id = some cid →
      cid ≠ "" → dict_get cid s._transactions = some txn →
      (dispatch env s e).1 = true ∧
      (dispatch env s e).2 = { step_log s e with
        _transactions := dict_pop cid s._transactions
        _state := (reduce_events env.now s._state txn.events (some s._facts)).1
        _facts := ((reduce_events env.now s._state txn.events
            (some s._facts)).2).getD s._facts }) ∧
    (∀ (env : Env) (s : StateStore) (e : StateEvent),
      e.event_type = EventType.TRANSACTION_ABORT →
      (dispatch env s e).1 = false ∧ (dispatchTr env s e).2 = []) ∧
    (∀ (env : Env) (s : StateStore) (e : StateEvent) (cid : String)
        (txn : Transaction),
      ¬ is_txn_control e.event_type → e.convo_id = some cid → cid ≠ "" →
      dict_get cid s._transactions = some txn →
      (dispatch env s e).1 = false ∧
      (dispatch env s e).2 = { step_log s e with
        _transactions := dict_buffer cid (step_event s e) s._transactions }) ∧
    (∀ (env : Env) (s : StateStore) (e : StateEvent),
      ¬ is_txn_control e.event_type →
      (convo_truthy e.convo_id = false ∨
        dict_get (e.convo_id.getD "") s._transactions = none) →
      (dispatch env s e).1 = true ∧
      (dispatch env s e).2._state
        = (reduce_state env.now s._state (step_event s e) (some s._facts)).1) := by
  refine ⟨?_, ?_, ?_, ?_, ?_, ?_⟩
  · intro env s e he
    rw [dispatch, dispatchTr_begin env s e he]
  · intro env s e cid txn he hcid hne hget
    rw [dispatch, dispatchTr_begin env s e he]
    exact begin_open_noop env (step_log s e) e cid txn hcid hne hget
  · intro env s e cid txn he hcid hne hget
    have hget' : dict_get cid (step_log s e)._transactions = some txn := hget
    rw [dispatch, dispatchTr_commit env s e he,
      commit_found (_apply_event env) (step_log s e) (step_event s e) cid txn
        hcid hne hget']
    refine ⟨rfl, ?_⟩
    rw [apply_fold]
    rfl
  · intro env s e he
    rw [dispatch, dispatchTr_abort env s e he]
    exact ⟨rfl, rfl⟩
  · intro env s e cid txn hc hcid hne hget
    rw [dispatch, dispatchTr_buffer env s e cid txn hc hcid hne hget]
    exact ⟨rfl, rfl⟩
  · intro env s e hc hb
    rw [dispatch, dispatchTr_apply_now env s e hc hb, _apply_event_spec]
    exact ⟨rfl, rfl⟩

/-- A transaction object already open under convo_id "t1". -/
def txn0 : Transaction := { convo_id := "t1", npc_id := "lydia" }

/-- A store with the transaction "t1" open. -/
def storeT : StateStore :=
  { StateStore.init lydia none 1000 with _transactions := [("t1", txn0)] }

/-- Witness for C4, exercising all six branches at concrete inputs. -/
theorem dispatch_return_contract_witness :
    (dispatch env0 (StateStore.init lydia none 1000)
        (transaction_begin_event "lydia" "t1")).1 = false ∧
    (dispatch env0 storeT (transaction_begin_event "lydia" "t1")).2
      = step_log storeT (transaction_begin_event "lydia" "t1") ∧
    (dispatch env0 storeT (transaction_commit_event "lydia" "t1")).1 = true ∧
    (dispatch env0 storeT (transaction_abort_event "lydia" "t1" "r")).1 = false ∧
    (dispatch env0 storeT (mood_set_event "lydia" "Happy" (some "t1"))).1
      = false ∧
    (dispatch env0 storeT (mood_set_event "lydia" "Happy" none)).1 = true := by
  refine ⟨?_, ?_, ?_, ?_, ?_, ?_⟩
  · exact dispatch_return_contract.1 env0 (StateStore.init lydia none 1000)
      (transaction_begin_event "lydia" "t1") rfl
  · exact dispatch_return_contract.2.1 env0 storeT
      (transaction_begin_event "lydia" "t1") "t1" txn0 rfl rfl (by decide) rfl
  · exact (dispatch_return_contract.2.2.1 env0 storeT
      (transaction_commit_event "lydia" "t1") "t1" txn0 rfl rfl (by decide)
      rfl).1
  · exact (dispatch_return_contract.2.2.2.1 env0 storeT
      (transaction_abort_event "lydia" "t1" "r") rfl).1
  · exact (dispatch_return_contract.2.2.2.2.1 env0 storeT
      (mood_set_event "lydia" "Happy" (some "t1")) "t1" txn0
      (by intro h; rcases h with h | h | h <;> exact absurd h (by decide))
      rfl (by decide) rfl).1
  · exact (dispatch_return_contract.2.2.2.2.2 env0 storeT
      (mood_set_event "lydia" "Happy" none)
      (by intro h; rcases h with h | h | h <;> exact absurd h (by decide))
      (Or.inl rfl)).1

/-- C10: a non-transaction-control event whose convo_id is None or empty
is applied immediately — dispatch returns True, no transaction buffer
changes, and state/facts are the reducer's output — and, in general,
buffering can only happen when the convo_id is truthy and names an open
transaction: otherwise the transaction table is untouched. -/
theorem falsy_convo_never_buffered :
    (∀ (env : Env) (s : StateStore) (e : StateEvent),
      ¬ is_txn_control e.event_type →
      (e.convo_id = none ∨ e.convo_id = some "") →
      (dispatch env s e).1 = true ∧
      (dispatch env s e).2._transactions = s._transactions ∧
      (dispatch env s e).2._state
        = (reduce_state env.now s._state (step_event s e) (some s._facts)).1 ∧
      (dispatch env s e).2._facts
        = ((reduce_state env.now s._state (step_event s e)
            (some s._facts)).2.1).getD s._facts) ∧
    (∀ (env : Env) (s : StateStore) (e : StateEvent),
      ¬ is_txn_control e.event_type →
      ¬(convo_truthy e.convo_id = true ∧
        (dict_get (e.convo_id.getD "") s._transactions).isSome = true) →
      (dispatch env s e).2._transactions = s._transactions) := by
  constructor
  · intro env s e hc hfalsy
    have hb : convo_truthy e.convo_id = false ∨
        dict_get (e.convo_id.getD "") s._transactions = none := by
      rcases hfalsy with h | h <;> rw [h] <;> exact Or.inl (by simp [convo_truthy])
    rw [dispatch, dispatchTr_apply_now env s e hc hb, _apply_event_spec]
    exact ⟨rfl, rfl, rfl, rfl⟩
  · intro env s e hc hnb
    have hb : convo_truthy e.convo_id = false ∨
        dict_get (e.convo_id.getD "") s._transactions = none := by
      by_cases ht : convo_truthy e.convo_id = true
      · refine Or.inr ?_
        rcases hd : dict_get (e.convo_id.getD "") s._transactions with _ | t
        · rfl
        · exact absurd ⟨ht, by rw [hd]; rfl⟩ hnb
      · exact Or.inl (by revert ht; cases convo_truthy e.convo_id <;> simp)
    rw [dispatch, dispatchTr_apply_now env s e hc hb, _apply_event_spec]
    rfl

/-- Witness for C10: with transaction "t1" open on the store, a MOOD_SET
event with convo_id None is applied immediately and returns True. -/
theorem falsy_convo_never_buffered_witness :
    (dispatch env0 storeT (mood_set_event "lydia" "Warm" none)).1 = true ∧
    (dispatch env0 storeT (mood_set_event "lydia" "Warm" none)).2._transactions
      = storeT._transactions ∧
    (dispatch env0 storeT (mood_set_event "lydia" "Warm" none)).2._state
      = (reduce_state env0.now storeT._state
          (step_event storeT (mood_set_event "lydia" "Warm" none))
          (some storeT._facts)).1 ∧
    (dispatch env0 storeT (mood_set_event "lydia" "Warm" none)).2._facts
      = ((reduce_state env0.now storeT._state
          (step_event storeT (mood_set_event "lydia" "Warm" none))
          (some storeT._facts)).2.1).getD storeT._facts :=
  falsy_convo_never_buffered.1 env0 storeT (mood_set_event "lydia" "Warm" none)
    (by intro h; rcases h with h | h | h <;> exact absurd h (by decide))
    (Or.inl rfl)

/-! ## Sequence monotonicity -/

theorem range'_drop (k : Nat) :
    ∀ (a n : Nat), (List.range' a n).drop k = List.range' (a + k) (n - k) := by
  induction k with
  | zero => intro a n; simp
  | succ k ih =>
    intro a n
    cases n with
    | zero => simp
    | succ m =>
      have hst : List.range' a (m + 1) = a :: List.range' (a + 1) m := rfl
      rw [hst, List.drop_succ_cons, ih]
      congr 1 <;> omega

theorem begin_fields (env : Env) (st : StateStore) (e : StateEvent) :
    (_begin_transaction env st e)._seq = st._seq ∧
    (_begin_transaction env st e)._max_event_log = st._max_event_log ∧
    (_begin_transaction env st e)._event_log = st._event_log ∧
    (_begin_transaction env st e)._state = st._state ∧
    (_begin_transaction env st e)._facts = st._facts := by
  unfold _begin_transaction
  dsimp only
  split <;> exact ⟨rfl, rfl, rfl, rfl, rfl⟩

theorem commit_fields (env : Env) (st : StateStore) (e : StateEvent) :
    ((_commit_transaction (_apply_event env) st e).2.1)._seq = st._seq ∧
    ((_commit_transaction (_apply_event env) st e).2.1)._max_event_log
      = st._max_event_log ∧
    ((_commit_transaction (_apply_event env) st e).2.1)._event_log
      = st._event_log := by
  unfold _commit_transaction
  rcases e.convo_id with _ | c
  · exact ⟨rfl, rfl, rfl⟩
  · dsimp only
    split
    · exact ⟨rfl, rfl, rfl⟩
    · split
      · exact ⟨rfl, rfl, rfl⟩
      · rw [apply_fold]
        exact ⟨rfl, rfl, rfl⟩

theorem abort_fields (st : StateStore) (e : StateEvent) :
    (_abort_transaction st e)._seq = st._seq ∧
    (_abort_transaction st e)._max_event_log = st._max_event_log ∧
    (_abort_transaction st e)._event_log = st._event_log ∧
    (_abort_transaction st e)._state = st._state ∧
    (_abort_transaction st e)._facts = st._facts := by
  unfold _abort_transaction
  rcases e.convo_id with _ | c
  · exact ⟨rfl, rfl, rfl, rfl, rfl⟩
  · dsimp only
    split
    · exact ⟨rfl, rfl, rfl, rfl, rfl⟩
    · split <;> exact ⟨rfl, rfl, rfl, rfl, rfl⟩

theorem dispatch_seq_log (env : Env) (s : StateStore) (e : StateEvent) :
    ((dispatch env s e).2)._seq = s._seq + 1 ∧
    ((dispatch env s e).2)._max_event_log = s._max_event_log ∧
    ((dispatch env s e).2)._event_log
      = deque_append s._max_event_log s._event_log (step_event s e) := by
  rw [dispatch]
  unfold dispatchTr dispatchCore
  dsimp only
  split_ifs with h1 h2 h3 h4
  · obtain ⟨a, b, c, _, _⟩ := begin_fields env (step_log s e) (step_event s e)
    exact ⟨a, b, c⟩
  · exact commit_fields env (step_log s e) (step_event s e)
  · obtain ⟨a, b, c, _, _⟩ := abort_fields (step_log s e) (step_event s e)
    exact ⟨a, b, c⟩
  · exact ⟨rfl, rfl, rfl⟩
  · rw [_apply_event_spec]
    exact ⟨rfl, rfl, rfl⟩

theorem deque_append_seqs (m S : Nat) (log : List StateEvent) (ev : StateEvent)
    (hev : ev.seq = S + 1)
    (hmap : log.map (fun x => x.seq)
      = List.range' (S + 1 - log.length) log.length)
    (hlen : log.length ≤ S) :
    (deque_append m log ev).map (fun x => x.seq)
        = List.range'
            (S + 2 - (deque_append m log ev).length)
            (deque_append m log ev).length ∧
      (deque_append m log ev).length ≤ S + 1 := by
  have hcat : (log ++ [ev]).map (fun x => x.seq)
      = List.range' (S + 1 - log.length) (log.length + 1) := by
    rw [List.map_append, hmap, List.range'_concat]
    simp [hev]
    omega
  simp only [deque_append]
  split_ifs with h
  · constructor
    · rw [List.map_drop, hcat, range'_drop]
      have hl : (log ++ [ev]).length = log.length + 1 := by simp
      rw [List.length_drop, hl]
      congr 1
      omega
    · rw [List.length_drop]
      simp
      omega
  · constructor
    · rw [hcat]
      have hl : (log ++ [ev]).length = log.length + 1 := by simp
      rw [hl]
      congr 1
      omega
    · simp at h ⊢
      omega

theorem dispatch_list_seqs (env : Env) (events : List StateEvent) :
    ∀ (s : StateStore),
      s._event_log.map (fun x => x.seq)
          = List.range' (s._seq + 1 - s._event_log.length) s._event_log.length →
      s._event_log.length ≤ s._seq →
      (dispatch_list env s events)._seq = s._seq + events.length ∧
      (dispatch_list env s events)._event_log.map (fun x => x.seq)
        = List.range'
            ((dispatch_list env s events)._seq + 1
              - (dispatch_list env s events)._event_log.length)
            (dispatch_list env s events)._event_log.length ∧
      (dispatch_list env s events)._event_log.length
        ≤ (dispatch_list env s events)._seq := by
  induction events with
  | nil => intro s h1 h2; exact ⟨rfl, h1, h2⟩
  | cons e es ih =>
    intro s h1 h2
    obtain ⟨hq, hm, hl⟩ := dispatch_seq_log env s e
    have hev : (step_event s e).seq = s._seq + 1 := rfl
    obtain ⟨hmap, hlen⟩ :=
      deque_append_seqs s._max_event_log s._seq s._event_log (step_event s e)
        hev h1 h2
    have hfold : dispatch_list env s (e :: es)
        = dispatch_list env ((dispatch env s e).2) es := rfl
    rw [hfold]
    have hrec := ih ((dispatch env s e).2)
      (by rw [hl, hq, hmap])
      (by rw [hl, hq]; exact hlen)
    rw [hq] at hrec
    refine ⟨?_, hrec.2.1, hrec.2.2⟩
    rw [hrec.1]
    simp only [List.length_cons]
    omega

/-- C7: on a freshly constructed store, after any sequence of dispatches
the final sequence counter equals the number of dispatches (each dispatch
is assigned the previous sequence number plus one, never reused), and the
sequence numbers recorded in the event log form the consecutive run
ending at that counter — strictly increasing in dispatch order with no
gaps. -/
theorem sequence_monotonic :
    (∀ (env : Env) (s : StateStore) (e : StateEvent),
      ((dispatch env s e).2)._seq = s._seq + 1) ∧
    (∀ (env : Env) (init_state : RFSNState)
      (init_facts : Option (List Fact)) (m : Nat) (events : List StateEvent),
      (dispatch_list env (StateStore.init init_state init_facts m)
            events)._seq = events.length ∧
      (dispatch_list env (StateStore.init init_state init_facts m)
            events)._event_log.map (fun x => x.seq)
        = List.range'
            ((dispatch_list env (StateStore.init init_state init_facts m)
                  events)._seq + 1
              - (dispatch_list env (StateStore.init init_state init_facts m)
                  events)._event_log.length)
            (dispatch_list env (StateStore.init init_state init_facts m)
                events)._event_log.length) := by
  constructor
  · intro env s e
    exact (dispatch_seq_log env s e).1
  · intro env init_state init_facts m events
    have h := dispatch_list_seqs env events
      (StateStore.init init_state init_facts m) (by rfl) (by simp [StateStore.init])
    refine ⟨?_, h.2.1⟩
    have h1 := h.1
    simpa [StateStore.init] using h1

/-! ## Failure semantics (C6) -/

/-- A reducer that raises on every call, as the store's try/except sees it. -/
def fail_reducer : ReducerFn := fun _ _ _ => Except.error "boom"

/-- A store with transaction "t1" open holding one buffered event. -/
def storeTB : StateStore :=
  { StateStore.init lydia none 1000 with _transactions :=
      [("t1", { convo_id := "t1"
                npc_id := "lydia"
                events := [affinity_delta_event "lydia" 0.5 "" (some "t1")] })] }

theorem _apply_event_exc_error (reducer : ReducerFn)
    (subs : List SubscriberFn) (s : StateStore) (e : StateEvent) (msg : String)
    (h : reducer s._state e (some s._facts) = Except.error msg) :
    _apply_event_exc reducer subs s e = (false, s) := by
  simp [_apply_event_exc, h]

theorem foldl_apply_id (applyFn : StateStore → StateEvent → Bool × StateStore)
    (h : ∀ st ev, applyFn st ev = (false, st)) (events : List StateEvent) :
    ∀ st, events.foldl (fun acc ev => (applyFn acc ev).2) st = st := by
  induction events with
  | nil => intro st; rfl
  | cons e es ih =>
    intro st
    rw [List.foldl_cons, h st e]
    exact ih st

theorem commit_sf_preserved
    (applyFn : StateStore → StateEvent → Bool × StateStore)
    (h : ∀ st ev, applyFn st ev = (false, st)) (st : StateStore)
    (e : StateEvent) :
    ((_commit_transaction applyFn st e).2.1)._state = st._state ∧
    ((_commit_transaction applyFn st e).2.1)._facts = st._facts := by
  unfold _commit_transaction
  rcases e.convo_id with _ | c
  · exact ⟨rfl, rfl⟩
  · dsimp only
    split
    · exact ⟨rfl, rfl⟩
    · split
      · exact ⟨rfl, rfl⟩
      · rw [foldl_apply_id applyFn h]
        exact ⟨rfl, rfl⟩

/-- C6 counterexample: with a reducer that raises on every call and
transaction "t1" open with one buffered event, dispatching the commit
returns True — not False as the claim requires when the reducer raises
during application (the state is still left unchanged, see the amended
theorem). -/
theorem commit_replay_failure_returns_true :
    (dispatch_exc fail_reducer [] env0 storeTB
        (transaction_commit_event "lydia" "t1")).1.1 = true := rfl

/-- C6 amended: (1) _apply_event under a raising reducer returns False and
leaves the store exactly as before — never partially mutated; (2) the
result never depends on the subscriber callbacks, so a subscriber
exception neither corrupts state nor changes the return value; (3) on the
immediate-apply path a reducer error makes dispatch return False with
state and facts exactly as before; (4) during a TRANSACTION_COMMIT replay
under an always-raising reducer, state and facts are also left unchanged —
but the commit dispatch itself returns True (see the counterexample), not
False as the claim literally requires.  Dispatch is a total function: it
never raises. -/
theorem dispatch_failure_atomic :
    (∀ (reducer : ReducerFn) (subs : List SubscriberFn) (s : StateStore)
        (e : StateEvent) (msg : String),
      reducer s._state e (some s._facts) = Except.error msg →
      _apply_event_exc reducer subs s e = (false, s)) ∧
    (∀ (reducer : ReducerFn) (subs subs' : List SubscriberFn)
        (s : StateStore) (e : StateEvent),
      _apply_event_exc reducer subs s e = _apply_event_exc reducer subs' s e) ∧
    (∀ (reducer : ReducerFn) (subs : List SubscriberFn) (env : Env)
        (s : StateStore) (e : StateEvent) (msg : String),
      ¬ is_txn_control e.event_type →
      (convo_truthy e.convo_id = false ∨
        dict_get (e.convo_id.getD "") s._transactions = none) →
      reducer s._state (step_event s e) (some s._facts) = Except.error msg →
      (dispatch_exc reducer subs env s e).1.1 = false ∧
      (dispatch_exc reducer subs env s e).1.2._state = s._state ∧
      (dispatch_exc reducer subs env s e).1.2._facts = s._facts) ∧
    (∀ (reducer : ReducerFn) (subs : List SubscriberFn) (env : Env)
        (s : StateStore) (e : StateEvent),
      (∀ st ev f, ∃ msg, reducer st ev f = Except.error msg) →
      e.event_type = EventType.TRANSACTION_COMMIT →
      (dispatch_exc reducer subs env s e).1.2._state = s._state ∧
      (dispatch_exc reducer subs env s e).1.2._facts = s._facts) := by
  refine ⟨_apply_event_exc_error, ?_, ?_, ?_⟩
  · intro reducer subs subs' s e
    rcases hr : reducer s._state e (some s._facts) with msg | r <;>
      simp [_apply_event_exc, hr]
  · intro reducer subs env s e msg hc hb hred
    rw [dispatch_exc, dispatchCore_apply_now _ env s e hc hb]
    rw [_apply_event_exc_error reducer subs (step_log s e) (step_event s e) msg hred]
    exact ⟨rfl, rfl, rfl⟩
  · intro reducer subs env s e hfail he
    have hall : ∀ st ev, _apply_event_exc reducer subs st ev = (false, st) := by
      intro st ev
      obtain ⟨msg, hmsg⟩ := hfail st._state ev (some st._facts)
      exact _apply_event_exc_error reducer subs st ev msg hmsg
    rw [dispatch_exc, dispatchCore_commit _ env s e he]
    exact commit_sf_preserved _ hall (step_log s e) (step_event s e)

/-- Witness for the amended C6 theorem at concrete inputs: a failing
reducer on a fresh store for the apply path, two different subscriber
lists, and the always-failing reducer on a store with a buffered
transaction for the commit path. -/
theorem dispatch_failure_atomic_witness :
    (_apply_event_exc fail_reducer [] (StateStore.init lydia none 1000)
        (mood_set_event "lydia" "Happy" none)
      = (false, StateStore.init lydia none 1000)) ∧
    (_apply_event_exc fail_reducer [fun _ _ => Except.error "sub"]
        (StateStore.init lydia none 1000) (mood_set_event "lydia" "Happy" none)
      = _apply_event_exc fail_reducer [] (StateStore.init lydia none 1000)
          (mood_set_event "lydia" "Happy" none)) ∧
    ((dispatch_exc fail_reducer [] env0 (StateStore.init lydia none 1000)
        (mood_set_event "lydia" "Happy" none)).1.1 = false ∧
      (dispatch_exc fail_reducer [] env0 (StateStore.init lydia none 1000)
        (mood_set_event "lydia" "Happy" none)).1.2._state
        = (StateStore.init lydia none 1000)._state ∧
      (dispatch_exc fail_reducer [] env0 (StateStore.init lydia none 1000)
        (mood_set_event "lydia" "Happy" none)).1.2._facts
        = (StateStore.init lydia none 1000)._facts) ∧
    ((dispatch_exc fail_reducer [] env0 storeTB
        (transaction_commit_event "lydia" "t1")).1.2._state
        = storeTB._state ∧
      (dispatch_exc fail_reducer [] env0 storeTB
        (transaction_commit_event "lydia" "t1")).1.2._facts
        = storeTB._facts) := by
  refine ⟨?_, ?_, ?_, ?_⟩
  · exact dispatch_failure_atomic.1 fail_reducer []
      (StateStore.init lydia none 1000) (mood_set_event "lydia" "Happy" none)
      "boom" rfl
  · exact dispatch_failure_atomic.2.1 fail_reducer
      [fun _ _ => Except.error "sub"] [] (StateStore.init lydia none 1000)
      (mood_set_event "lydia" "Happy" none)
  · exact dispatch_failure_atomic.2.2.1 fail_reducer [] env0
      (StateStore.init lydia none 1000) (mood_set_event "lydia" "Happy" none)
      "boom"
      (by intro h; rcases h with h | h | h <;> exact absurd h (by decide))
      (Or.inl rfl) rfl
  · exact dispatch_failure_atomic.2.2.2 fail_reducer [] env0 storeTB
      (transaction_commit_event "lydia" "t1")
      (fun _ _ _ => ⟨"boom", rfl⟩) rfl

/-! ## Transaction atomicity (C1) -/

/-- The part of an event the reducer can see: type and payload.  Dispatch
re-sequences buffered events, which leaves this core unchanged. -/
def event_core (e : StateEvent) : EventType × Payload := (e.event_type, e.payload)

theorem reduce_state_core (now : String) (st : RFSNState)
    (f : Option (List Fact)) (e e' : StateEvent)
    (h : event_core e = event_core e') :
    reduce_state now st e f = reduce_state now st e' f := by
  have h1 : e.event_type = e'.event_type := congrArg Prod.fst h
  have h2 : e.payload = e'.payload := congrArg Prod.snd h
  unfold reduce_state
  rw [h1, h2]

theorem reduce_events_congr (now : String) :
    ∀ (es es' : List StateEvent),
      es.map event_core = es'.map event_core →
      ∀ (st : RFSNState) (f : Option (List Fact)),
        reduce_events now st es f = reduce_events now st es' f := by
  intro es
  induction es with
  | nil =>
    intro es' h st f
    cases es' with
    | nil => rfl
    | cons x xs => exact absurd h (by simp)
  | cons e es ih =>
    intro es' h st f
    cases es' with
    | nil => exact absurd h (by simp)
    | cons x xs =>
      simp only [List.map_cons, List.cons.injEq] at h
      rw [reduce_events_cons, reduce_events_cons,
        reduce_state_core now st f e x h.1]
      exact ih xs h.2 _ _

theorem dispatch_tr_fold_acc (env : Env) (es : List StateEvent) :
    ∀ (s : StateStore) (tr0 : List StateEvent),
      es.foldl
          (fun acc e =>
            let r := dispatchTr env acc.1 e
            (r.1.2, acc.2 ++ r.2))
          (s, tr0)
        = (dispatch_list env s es, tr0 ++ (dispatch_list_tr env s es).2) := by
  induction es with
  | nil => intro s tr0; simp [dispatch_list, dispatch_list_tr]
  | cons e es ih =>
    intro s tr0
    rw [List.foldl_cons]
    dsimp only
    rw [ih ((dispatchTr env s e).1.2) (tr0 ++ (dispatchTr env s e).2)]
    have h1 : dispatch_list env s (e :: es)
        = dispatch_list env ((dispatchTr env s e).1.2) es := rfl
    have h2 : dispatch_list_tr env s (e :: es)
        = es.foldl
            (fun acc e =>
              let r := dispatchTr env acc.1 e
              (r.1.2, acc.2 ++ r.2))
            ((dispatchTr env s e).1.2, [] ++ (dispatchTr env s e).2) := rfl
    rw [h1, h2, List.nil_append,
      ih ((dispatchTr env s e).1.2) ((dispatchTr env s e).2)]
    simp [List.append_assoc]

theorem dispatch_list_eq_tr (env : Env) (s : StateStore)
    (es : List StateEvent) :
    (dispatch_list_tr env s es).1 = dispatch_list env s es := by
  rw [dispatch_list_tr, dispatch_tr_fold_acc]

theorem dispatch_list_tr_cons (env : Env) (s : StateStore) (e : StateEvent)
    (es : List StateEvent) :
    dispatch_list_tr env s (e :: es)
      = (dispatch_list env ((dispatchTr env s e).1.2) es,
        (dispatchTr env s e).2
          ++ (dispatch_list_tr env ((dispatchTr env s e).1.2) es).2) := by
  rw [dispatch_list_tr]
  rw [List.foldl_cons]
  dsimp only
  rw [List.nil_append, dispatch_tr_fold_acc]

theorem buffer_run (env : Env) (events : List StateEvent) :
    ∀ (s : StateStore) (cid : String) (pre : List (String × Transaction))
      (txn : Transaction),
      cid ≠ "" →
      s._transactions = pre ++ [(cid, txn)] →
      (∀ p ∈ pre, p.1 ≠ cid) →
      (∀ e ∈ events, ¬ is_txn_control e.event_type ∧ e.convo_id = some cid) →
      ∃ buf : List StateEvent,
        (dispatch_list_tr env s events).1._state = s._state ∧
        (dispatch_list_tr env s events).1._facts = s._facts ∧
        (dispatch_list_tr env s events).1._transactions
          = pre ++ [(cid, { txn with events := txn.events ++ buf })] ∧
        (dispatch_list_tr env s events).2 = [] ∧
        buf.map event_core = events.map event_core := by
  induction events with
  | nil =>
    intro s cid pre txn hne ht hpre hall
    refine ⟨[], rfl, rfl, ?_, rfl, rfl⟩
    have : (dispatch_list_tr env s []).1 = s := rfl
    rw [this, ht, List.append_nil]
  | cons e es ih =>
    intro s cid pre txn hne ht hpre hall
    obtain ⟨hce, hcv⟩ := hall e (by simp)
    have hget : dict_get cid s._transactions = some txn := by
      rw [ht]; exact dict_get_last cid txn pre hpre
    have hdisp := dispatchTr_buffer env s e cid txn hce hcv hne hget
    have htB : ({ step_log s e with
        _transactions := dict_buffer cid (step_event s e) s._transactions } :
          StateStore)._transactions
        = pre ++ [(cid, { txn with events := txn.events ++ [step_event s e] })] := by
      show dict_buffer cid (step_event s e) s._transactions
          = pre ++ [(cid, { txn with events := txn.events ++ [step_event s e] })]
      rw [ht]
      exact dict_buffer_last cid (step_event s e) txn pre hpre
    obtain ⟨buf', h1, h2, h3, h4, h5⟩ := ih
      ({ step_log s e with
        _transactions := dict_buffer cid (step_event s e) s._transactions })
      cid pre ({ txn with events := txn.events ++ [step_event s e] })
      hne htB hpre (fun x hx => hall x (by simp [hx]))
    refine ⟨step_event s e :: buf', ?_, ?_, ?_, ?_, ?_⟩
    · rw [dispatch_list_tr_cons, hdisp]
      dsimp only
      rw [← dispatch_list_eq_tr]
      exact h1
    · rw [dispatch_list_tr_cons, hdisp]
      dsimp only
      rw [← dispatch_list_eq_tr]
      exact h2
    · rw [dispatch_list_tr_cons, hdisp]
      dsimp only
      rw [← dispatch_list_eq_tr, h3]
      simp [List.append_assoc]
    · rw [dispatch_list_tr_cons, hdisp]
      dsimp only
      rw [List.nil_append]
      exact h4
    · simp only [List.map_cons, h5]
      rfl

theorem dispatch_list_append (env : Env) (s : StateStore)
    (es1 es2 : List StateEvent) :
    dispatch_list env s (es1 ++ es2)
      = dispatch_list env (dispatch_list env s es1) es2 := by
  rw [dispatch_list, List.foldl_append]
  rfl

theorem dispatch_list_tr_snoc (env : Env) (s : StateStore)
    (es : List StateEvent) (e : StateEvent) :
    (dispatch_list_tr env s (es ++ [e])).2
      = (dispatch_list_tr env s es).2
        ++ (dispatchTr env (dispatch_list env s es) e).2 := by
  have h : dispatch_list_tr env s (es ++ [e])
      = ((dispatchTr env (dispatch_list_tr env s es).1 e).1.2,
        (dispatch_list_tr env s es).2
          ++ (dispatchTr env (dispatch_list_tr env s es).1 e).2) := by
    rw [dispatch_list_tr, List.foldl_append]
    rfl
  rw [h]
  rw [dispatch_list_eq_tr]

/-- C1: transaction atomicity.  Begin a transaction on convo_id `cid` that
is not already open, dispatch any list of affinity/mood events carrying
that convo_id, then: on TRANSACTION_COMMIT the snapshot equals reducing
the events directly, in order, over the pre-transaction state and facts;
on TRANSACTION_ABORT the state and facts snapshots equal the
pre-transaction snapshots, and the whole begin/buffer/abort run passes no
event whatsoever to the reducer. -/
theorem transaction_atomicity (env : Env) (store : StateStore)
    (cid npc reason : String) (events : List StateEvent) (hne : cid ≠ "")
    (hfresh : dict_get cid store._transactions = none)
    (hev : ∀ e ∈ events,
      (e.event_type = EventType.AFFINITY_DELTA ∨
        e.event_type = EventType.MOOD_SET) ∧ e.convo_id = some cid) :
    get_snapshot (dispatch_list env store
        (transaction_begin_event npc cid ::
          (events ++ [transaction_commit_event npc cid])))
      = (reduce_events env.now store._state events (some store._facts)).1 ∧
    get_snapshot (dispatch_list env store
        (transaction_begin_event npc cid ::
          (events ++ [transaction_abort_event npc cid reason])))
      = get_snapshot store ∧
    get_facts_snapshot (dispatch_list env store
        (transaction_begin_event npc cid ::
          (events ++ [transaction_abort_event npc cid reason])))
      = get_facts_snapshot store ∧
    (dispatch_list_tr env store
        (transaction_begin_event npc cid ::
          (events ++ [transaction_abort_event npc cid reason]))).2 = [] := by
  have hpre : ∀ p ∈ store._transactions, p.1 ≠ cid :=
    (dict_get_none_iff cid store._transactions).mp hfresh
  have hall : ∀ e ∈ events,
      ¬ is_txn_control e.event_type ∧ e.convo_id = some cid := by
    intro e he
    refine ⟨?_, (hev e he).2⟩
    rcases (hev e he).1 with h | h <;> rw [h] <;> decide
  have hbeginT :
      _begin_transaction env
          (step_log store (transaction_begin_event npc cid))
          (step_event store (transaction_begin_event npc cid))
        = ({ step_log store (transaction_begin_event npc cid) with
            _transactions := store._transactions ++
              [(cid, ⟨cid, npc, [], env.now⟩)] } : StateStore) :=
    begin_fresh env _ _ cid rfl hne hfresh
  have hbegin : (dispatch env store (transaction_begin_event npc cid)).2
      = ({ step_log store (transaction_begin_event npc cid) with
          _transactions := store._transactions ++
            [(cid, ⟨cid, npc, [], env.now⟩)] } : StateStore) := by
    rw [dispatch, dispatchTr_begin env store _ rfl]
    exact hbeginT
  obtain ⟨buf, h1, h2, h3, h4, h5⟩ := buffer_run env events
    ({ step_log store (transaction_begin_event npc cid) with
        _transactions := store._transactions ++
          [(cid, ⟨cid, npc, [], env.now⟩)] })
    cid store._transactions ⟨cid, npc, [], env.now⟩ hne rfl hpre hall
  set s2 := (dispatch_list_tr env
    ({ step_log store (transaction_begin_event npc cid) with
        _transactions := store._transactions ++
          [(cid, ⟨cid, npc, [], env.now⟩)] }) events).1 with hs2
  have hget2 : dict_get cid s2._transactions
      = some ⟨cid, npc, [] ++ buf, env.now⟩ := by
    rw [h3]
    exact dict_get_last cid _ store._transactions hpre
  have heq : s2 = dispatch_list env
      ({ step_log store (transaction_begin_event npc cid) with
          _transactions := store._transactions ++
            [(cid, ⟨cid, npc, [], env.now⟩)] }) events :=
    hs2.trans (dispatch_list_eq_tr env _ events)
  refine ⟨?_, ?_, ?_, ?_⟩
  · -- commit run
    have hcons : dispatch_list env store
        (transaction_begin_event npc cid ::
          (events ++ [transaction_commit_event npc cid]))
        = dispatch_list env
            ((dispatch env store (transaction_begin_event npc cid)).2)
            (events ++ [transaction_commit_event npc cid]) := rfl
    rw [hcons, hbegin, dispatch_list_append]
    rw [← heq]
    have hone : dispatch_list env s2 [transaction_commit_event npc cid]
        = (dispatch env s2 (transaction_commit_event npc cid)).2 := rfl
    rw [hone, dispatch, dispatchTr_commit env s2 _ rfl]
    dsimp only
    rw [commit_found (_apply_event env)
      (step_log s2 (transaction_commit_event npc cid))
      (step_event s2 (transaction_commit_event npc cid)) cid
      ⟨cid, npc, [] ++ buf, env.now⟩ rfl hne hget2]
    dsimp only
    rw [apply_fold]
    have hmain : (reduce_events env.now s2._state ([] ++ buf)
          (some s2._facts)).1
        = (reduce_events env.now store._state events (some store._facts)).1 := by
      rw [reduce_events_congr env.now ([] ++ buf) events h5 s2._state
        (some s2._facts)]
      rw [h1, h2]
      rfl
    exact hmain
  · -- abort run, state snapshot
    have hcons : dispatch_list env store
        (transaction_begin_event npc cid ::
          (events ++ [transaction_abort_event npc cid reason]))
        = dispatch_list env
            ((dispatch env store (transaction_begin_event npc cid)).2)
            (events ++ [transaction_abort_event npc cid reason]) := rfl
    rw [hcons, hbegin, dispatch_list_append]
    rw [← heq]
    have hone : dispatch_list env s2 [transaction_abort_event npc cid reason]
        = (dispatch env s2 (transaction_abort_event npc cid reason)).2 := rfl
    rw [hone, dispatch, dispatchTr_abort env s2 _ rfl]
    dsimp only
    rw [abort_found (step_log s2 (transaction_abort_event npc cid reason))
      (step_event s2 (transaction_abort_event npc cid reason)) cid
      ⟨cid, npc, [] ++ buf, env.now⟩ rfl hne hget2]
    exact h1
  · -- abort run, facts snapshot
    have hcons : dispatch_list env store
        (transaction_begin_event npc cid ::
          (events ++ [transaction_abort_event npc cid reason]))
        = dispatch_list env
            ((dispatch env store (transaction_begin_event npc cid)).2)
            (events ++ [transaction_abort_event npc cid reason]) := rfl
    rw [hcons, hbegin, dispatch_list_append]
    rw [← heq]
    have hone : dispatch_list env s2 [transaction_abort_event npc cid reason]
        = (dispatch env s2 (transaction_abort_event npc cid reason)).2 := rfl
    rw [hone, dispatch, dispatchTr_abort env s2 _ rfl]
    dsimp only
    rw [abort_found (step_log s2 (transaction_abort_event npc cid reason))
      (step_event s2 (transaction_abort_event npc cid reason)) cid
      ⟨cid, npc, [] ++ buf, env.now⟩ rfl hne hget2]
    exact h2
  · -- abort run, reducer trace
    rw [dispatch_list_tr_cons]
    rw [dispatchTr_begin env store _ rfl]
    dsimp only
    rw [List.nil_append, hbeginT, dispatch_list_tr_snoc]
    rw [h4, List.nil_append]
    rw [← heq]
    rw [dispatchTr_abort env s2 _ rfl]

/-- Witness for C1 at a fresh store, transaction "t1", one affinity and
one mood event, committed in one run and aborted in another. -/
theorem transaction_atomicity_witness :
    get_snapshot (dispatch_list env0 (StateStore.init lydia none 1000)
        (transaction_begin_event "lydia" "t1" ::
          ([affinity_delta_event "lydia" 0.2 "gift" (some "t1"),
            mood_set_event "lydia" "Happy" (some "t1")] ++
            [transaction_commit_event "lydia" "t1"])))
      = (reduce_events env0.now (StateStore.init lydia none 1000)._state
          [affinity_delta_event "lydia" 0.2 "gift" (some "t1"),
            mood_set_event "lydia" "Happy" (some "t1")]
          (some (StateStore.init lydia none 1000)._facts)).1 ∧
    get_snapshot (dispatch_list env0 (StateStore.init lydia none 1000)
        (transaction_begin_event "lydia" "t1" ::
          ([affinity_delta_event "lydia" 0.2 "gift" (some "t1"),
            mood_set_event "lydia" "Happy" (some "t1")] ++
            [transaction_abort_event "lydia" "t1" "r"])))
      = get_snapshot (StateStore.init lydia none 1000) ∧
    get_facts_snapshot (dispatch_list env0 (StateStore.init lydia none 1000)
        (transaction_begin_event "lydia" "t1" ::
          ([affinity_delta_event "lydia" 0.2 "gift" (some "t1"),
            mood_set_event "lydia" "Happy" (some "t1")] ++
            [transaction_abort_event "lydia" "t1" "r"])))
      = get_facts_snapshot (StateStore.init lydia none 1000) ∧
    (dispatch_list_tr env0 (StateStore.init lydia none 1000)
        (transaction_begin_event "lydia" "t1" ::
          ([affinity_delta_event "lydia" 0.2 "gift" (some "t1"),
            mood_set_event "lydia" "Happy" (some "t1")] ++
            [transaction_abort_event "lydia" "t1" "r"]))).2 = [] :=
  transaction_atomicity env0 (StateStore.init lydia none 1000) "t1" "lydia" "r"
    [affinity_delta_event "lydia" 0.2 "gift" (some "t1"),
      mood_set_event "lydia" "Happy" (some "t1")]
    (by decide) rfl
    (by
      intro e he
      simp only [List.mem_cons, List.not_mem_nil, or_false] at he
      rcases he with he | he
      · subst he; exact ⟨Or.inl rfl, rfl⟩
      · subst he; exact ⟨Or.inr rfl, rfl⟩)

/-! ## Transaction misuse (C5) -/

/-- C5 counterexample: dispatching a TRANSACTION_COMMIT (or ABORT) whose
convo_id names no open transaction does not raise — the store logs a
warning and returns False with state, facts and transaction table exactly
as before: a silent degradation, where the claim requires a raise/panic. -/
theorem commit_abort_no_match_silent :
    (dispatch env0 (StateStore.init lydia none 1000)
        (transaction_commit_event "lydia" "t1")).1 = false ∧
    get_snapshot ((dispatch env0 (StateStore.init lydia none 1000)
        (transaction_commit_event "lydia" "t1")).2) = lydia ∧
    ((dispatch env0 (StateStore.init lydia none 1000)
        (transaction_commit_event "lydia" "t1")).2)._transactions = [] ∧
    (dispatch env0 (StateStore.init lydia none 1000)
        (transaction_abort_event "lydia" "t1" "r")).1 = false ∧
    get_snapshot ((dispatch env0 (StateStore.init lydia none 1000)
        (transaction_abort_event "lydia" "t1" "r")).2) = lydia ∧
    ((dispatch env0 (StateStore.init lydia none 1000)
        (transaction_abort_event "lydia" "t1" "r")).2)._transactions = [] :=
  ⟨rfl, rfl, rfl, rfl, rfl, rfl⟩

/-- C5 amended: every operation on a terminal (committed or aborted)
StreamTransaction raises (start, add_text, add_audio,
queue_affinity_change, queue_mood_change, queue_fact, commit, abort all
return an error, never a silent no-op); but a store-level commit or abort
naming no open transaction does NOT raise — it returns False with state,
facts and transaction table unchanged (see the counterexample). -/
theorem transaction_misuse_amended :
    (∀ (env : Env) (txn : StreamTransaction) (player_input delta_text : String)
        (is_final : Bool) (audio : List Nat) (rate : Nat) (delta : Rat)
        (reason mood text : String) (tags : List String) (salience : Rat)
        (error_code : Option String),
      txn._started = true → (txn._committed = true ∨ txn._aborted = true) →
      txn.start env player_input = Except.error "Transaction already started" ∧
      txn.add_text env delta_text is_final
        = Except.error "Transaction not active" ∧
      txn.add_audio env audio rate = Except.error "Transaction not active" ∧
      txn.queue_affinity_change delta reason
        = Except.error "Transaction not active" ∧
      txn.queue_mood_change mood = Except.error "Transaction not active" ∧
      txn.queue_fact text tags salience
        = Except.error "Transaction not active" ∧
      txn.commit env = Except.error "Transaction not active" ∧
      txn.abort env reason error_code
        = Except.error "Transaction not active") ∧
    (∀ (env : Env) (s : StateStore) (e : StateEvent) (cid : String),
      (e.event_type = EventType.TRANSACTION_COMMIT ∨
        e.event_type = EventType.TRANSACTION_ABORT) →
      e.convo_id = some cid →
      (cid = "" ∨ dict_get cid s._transactions = none) →
      (dispatch env s e).1 = false ∧
      (dispatch env s e).2._state = s._state ∧
      (dispatch env s e).2._facts = s._facts ∧
      (dispatch env s e).2._transactions = s._transactions) := by
  constructor
  · intro env txn player_input delta_text is_final audio rate delta reason
      mood text tags salience error_code hstart hterm
    have hact : txn.is_active = false := by
      unfold StreamTransaction.is_active
      rcases hterm with h | h <;> rw [hstart, h] <;> simp
    refine ⟨?_, ?_, ?_, ?_, ?_, ?_, ?_, ?_⟩
    · simp [StreamTransaction.start, hstart]
    · simp [StreamTransaction.add_text, hact]
    · simp [StreamTransaction.add_audio, hact]
    · simp [StreamTransaction.queue_affinity_change, hact]
    · simp [StreamTransaction.queue_mood_change, hact]
    · simp [StreamTransaction.queue_fact, hact]
    · simp [StreamTransaction.commit, hact]
    · simp [StreamTransaction.abort, hact]
  · intro env s e cid he hcid hna
    have hmiss : (step_event s e).convo_id = none ∨
        (step_event s e).convo_id = some "" ∨
        dict_get ((step_event s e).convo_id.getD "")
          (step_log s e)._transactions = none := by
      rcases hna with h | h
      · refine Or.inr (Or.inl ?_)
        show e.convo_id = some ""
        rw [hcid, h]
      · refine Or.inr (Or.inr ?_)
        show dict_get (e.convo_id.getD "") s._transactions = none
        rw [hcid]
        simpa using h
    rcases he with he | he
    · rw [dispatch, dispatchTr_commit env s e he,
        commit_missing (_apply_event env) (step_log s e) (step_event s e) hmiss]
      exact ⟨rfl, rfl, rfl, rfl⟩
    · rw [dispatch, dispatchTr_abort env s e he,
        abort_missing (step_log s e) (step_event s e) hmiss]
      exact ⟨rfl, rfl, rfl, rfl⟩

/-- A StreamTransaction already committed (terminal). -/
def txnDone : StreamTransaction :=
  { npc_id := "lydia"
    store := StateStore.init lydia none 1000
    convo_id := "t1"
    _started := true
    _committed := true }

/-- Witness for the amended C5 theorem: all eight operations error on a
committed transaction, and a store-level commit with no open transaction
returns False with the store unchanged. -/
theorem transaction_misuse_amended_witness :
    (txnDone.start env0 "hi" = Except.error "Transaction already started" ∧
      txnDone.add_text env0 "d" false
        = Except.error "Transaction not active" ∧
      txnDone.add_audio env0 [1, 2] 22050
        = Except.error "Transaction not active" ∧
      txnDone.queue_affinity_change 0.1 "r"
        = Except.error "Transaction not active" ∧
      txnDone.queue_mood_change "Happy"
        = Except.error "Transaction not active" ∧
      txnDone.queue_fact "f" [] 0.7
        = Except.error "Transaction not active" ∧
      txnDone.commit env0 = Except.error "Transaction not active" ∧
      txnDone.abort env0 "r" none
        = Except.error "Transaction not active") ∧
    ((dispatch env0 (StateStore.init lydia none 1000)
        (transaction_commit_event "lydia" "t1")).1 = false ∧
      (dispatch env0 (StateStore.init lydia none 1000)
          (transaction_commit_event "lydia" "t1")).2._state
        = (StateStore.init lydia none 1000)._state ∧
      (dispatch env0 (StateStore.init lydia none 1000)
          (transaction_commit_event "lydia" "t1")).2._facts
        = (StateStore.init lydia none 1000)._facts ∧
      (dispatch env0 (StateStore.init lydia none 1000)
          (transaction_commit_event "lydia" "t1")).2._transactions
        = (StateStore.init lydia none 1000)._transactions) :=
  ⟨transaction_misuse_amended.1 env0 txnDone "hi" "d" false [1, 2] 22050 0.1
      "r" "Happy" "f" [] 0.7 none rfl (Or.inl rfl),
    transaction_misuse_amended.2 env0 (StateStore.init lydia none 1000)
      (transaction_commit_event "lydia" "t1") "t1" (Or.inl rfl) rfl
      (Or.inr rfl)⟩

end RFSN
